import Mathlib

/-!
Verification development for the multi-strategy train-journey proxy.

The repository is a set of near-duplicate Express services.  `server.js`
concatenates four app variants:

* V1 (lines 1-130): synthetic-only service, `getNextTrains`;
* V2 (lines 130-239): `hafas-client` variant, `getJourneys` / `transformJourney`;
* V3 (lines 240-518): `oebb-hafas` variant, `fetchRealTrainData` /
  `getFallbackData` / `getJourneys`;
* V4 (lines 518-945): multi-method "real-time" variant,
  `generateRealisticSchedule` / `getJourneys`.

`src/unnamed/part_000` (namespace `Scraper` below) is the web-scraper variant
with the `isScrapingInProgress` single-flight gate, the three scraping
strategies, the `mgate` parser and `getEmergencyFallback`.

Modelling conventions:
* wall-clock instants (`Date.now()` values, cache timestamps) are `Int`
  milliseconds; times of day are `Nat` minutes;
* `Math.random()` draws are modelled by an injected stream
  `rand : Nat → ℚ × ℚ` giving, for the i-th constructed leg, the pair
  (probability draw, magnitude draw) the code consumes for it;
* network fetches are inputs of type `Except Unit _`: `.error ()` is a thrown
  or failed fetch, mirroring the `try`/`catch` structure of the source;
* JS `x.toString().padStart(2, '0')` on the numbers that occur here (< 100)
  is the two-digit rendering `pad2`.
-/

namespace OebbProxy

/-- JS `Math.round` on exact rationals: `Math.round x = ⌊x + 1/2⌋`. -/
def jsRound (q : ℚ) : Int := Int.floor (q + 1 / 2)

/-- Decimal digit character, `48 + n` for `n < 10`. -/
def digitChar (n : Nat) : Char := Char.ofNat (48 + n % 10)

/-- Rendering `n.toString().padStart(2, '0')` for `n < 100`. -/
def pad2 (n : Nat) : String := String.mk [digitChar (n / 10), digitChar (n % 10)]

/-- The `"HH:MM"` rendering `pad2 h ++ ":" ++ pad2 m` used throughout the source. -/
def fmtHM (h m : Nat) : String := pad2 h ++ ":" ++ pad2 m

/-- Render a total-minutes value as `"HH:MM"`. -/
def fmtTime (total : Nat) : String := fmtHM (total / 60) (total % 60)

/-- Numeric value of a decimal digit character. -/
def digitVal (c : Char) : Option Nat :=
  if c.isDigit then some (c.toNat - 48) else none

/-- Read a clock string of shape `H:MM` or `HH:MM` (the shapes produced by the
source's formatting and by its `\d{1,2}:\d{2}` regex) as an (hours, minutes)
pair of digit values. -/
def parseClock (s : String) : Option (Nat × Nat) :=
  match s.data with
  | [h1, h2, c, m1, m2] =>
    if c = ':' then
      match digitVal h1, digitVal h2, digitVal m1, digitVal m2 with
      | some a, some b, some x, some y => some (a * 10 + b, x * 10 + y)
      | _, _, _, _ => none
    else none
  | [h1, c, m1, m2] =>
    if c = ':' then
      match digitVal h1, digitVal m1, digitVal m2 with
      | some a, some x, some y => some (a, x * 10 + y)
      | _, _, _ => none
    else none
  | _ => none

/-- Total minutes denoted by a clock string. -/
def parseHHMM (s : String) : Option Nat :=
  (parseClock s).map fun p => p.1 * 60 + p.2

/-- The leg shape returned to clients by V1, V3, V4 and the scraper variant:
`{departure, arrival, trainType, trainNumber, delay, status, platform}`. -/
structure Train where
  departure : String
  arrival : String
  trainType : String
  trainNumber : String
  delay : Int
  status : String
  platform : String
deriving DecidableEq

instance : Inhabited Train := ⟨⟨"", "", "", "", 0, "", ""⟩⟩

/-- The shared delay-classification rule of the spec, which is also literally
the expression in `getNextTrains` (server.js line 72):
`delay === 0 ? 'on-time' : delay <= 5 ? 'slightly-delayed' : 'delayed'`. -/
def classifyDelay (d : Int) : String :=
  if d = 0 then "on-time" else if d ≤ 5 then "slightly-delayed" else "delayed"

/-- The delay-classification thresholds on a possibly fractional
`delayMinutes` value (as produced by the hafas-client transform, whose
thresholds are 0 and 300 upstream seconds = 0 and 5 minutes): minutes ≤ 0 →
on-time, ≤ 5 → slightly-delayed, > 5 → delayed.  Agrees with `classifyDelay`
on non-negative integers. -/
def classifyDelayQ (m : ℚ) : String :=
  if m ≤ 0 then "on-time" else if m ≤ 5 then "slightly-delayed" else "delayed"

/-- Actual departure in minutes: scheduled departure plus delay. -/
def actualDepartureMinutes (leg : Train) : Int :=
  ((parseHHMM leg.departure).getD 0 : Nat) + leg.delay

/-- Actual departure on the real time axis: legs tagged `"scheduled"` are the
wrap-around legs, understood as next-day departures (+24h). -/
def nextDayAdjustedDeparture (leg : Train) : Int :=
  actualDepartureMinutes leg + (if leg.status = "scheduled" then 1440 else 0)

/-- JS truthy-or-default on an optional string (`s || d`; empty string is falsy). -/
def jsOr (o : Option String) (d : String) : String :=
  match o with
  | some s => if s = "" then d else s
  | none => d

/-- JS string coercion of a nullable string (`null` prints as `"null"`). -/
def jsStr (o : Option String) : String := o.getD "null"

/-- Boolean substring containment on character lists. -/
def isInfixB (sub : List Char) : List Char → Bool
  | [] => sub.isEmpty
  | c :: t => sub.isPrefixOf (c :: t) || isInfixB sub t

/-- JS `s.includes(sub)`. -/
def strIncludes (s sub : String) : Bool := isInfixB sub.data s.data

/-! ## V1: synthetic-only variant (server.js lines 1-130) -/

namespace V1

/-- One row of the hardcoded schedule tables
(`stPoeltenToLinzSchedule` / `linzToStPoeltenSchedule`). -/
structure RawEntry where
  departure : String
  arrival : String
  train : String
  ty : String
  platform : String
deriving DecidableEq

/-- Embedding of `getNextTrains(schedule)` (server.js lines 51-84).  `currentTime` is
`now.getHours() * 60 + now.getMinutes()`; `rand i` supplies the
`Math.random()` draws consumed for the i-th returned train. -/
def getNextTrains (schedule : List RawEntry) (currentTime : Nat)
    (rand : Nat → ℚ × ℚ) : List Train :=
  let nextTrains :=
    (schedule.filter fun t =>
      match parseHHMM t.departure with
      | some trainTime => decide (currentTime < trainTime)
      | none => false).take 3
  let nextTrains :=
    if nextTrains.length < 3 then
      nextTrains ++ schedule.take (3 - nextTrains.length)
    else nextTrains
  nextTrains.mapIdx fun index t =>
    let delay : Int :=
      if (rand index).1 > 7 / 10 then Int.floor ((rand index).2 * 10) else 0
    let status :=
      if delay = 0 then "on-time"
      else if delay ≤ 5 then "slightly-delayed" else "delayed"
    { departure := t.departure
      arrival := t.arrival
      trainType := t.ty
      trainNumber := t.train
      delay := delay
      status := status
      platform := t.platform }

end V1

/-! ## V2: hafas-client variant (server.js lines 130-239) -/

namespace V2

structure HafasProduct where
  ty : Option String
deriving DecidableEq

structure HafasLine where
  name : Option String
  product : Option HafasProduct
deriving DecidableEq

/-- A journey leg as delivered by `hafas-client`: departure/arrival are epoch
milliseconds (the `Date` values), `departureDelay` is in seconds. -/
structure HafasLeg where
  line : Option HafasLine
  departure : Int
  arrival : Int
  departurePlatform : Option String
  arrivalPlatform : Option String
  departureDelay : Option ℚ
deriving DecidableEq

instance : Inhabited HafasLeg := ⟨⟨none, 0, 0, none, none, none⟩⟩

structure HafasJourney where
  legs : List HafasLeg
deriving DecidableEq

/-- The simplified object produced by `transformJourney` (server.js lines
202-216).  `delayMinutes` is `depDelay / 60` with `depDelay` in seconds, so it
is an exact rational. -/
structure SimpleJourney where
  train : String
  trainType : String
  departure : Int
  arrival : Int
  departurePlatform : Option String
  arrivalPlatform : Option String
  delayMinutes : ℚ
  status : String
deriving DecidableEq

/-- Embedding of `transformJourney(journey)` (server.js lines 202-216). -/
def transformJourney (journey : HafasJourney) : SimpleJourney :=
  let leg := journey.legs.headI
  let depDelay : ℚ := leg.departureDelay.getD 0
  let status :=
    if depDelay ≤ 0 then "on-time"
    else if depDelay ≤ 5 * 60 then "slightly-delayed" else "delayed"
  { train := jsOr (leg.line.bind fun l => l.name) ""
    trainType := jsOr ((leg.line.bind fun l => l.product).bind fun p => p.ty) ""
    departure := leg.departure
    arrival := leg.arrival
    departurePlatform := leg.departurePlatform
    arrivalPlatform := leg.arrivalPlatform
    delayMinutes := depDelay / 60
    status := status }

structure CacheEntry where
  data : Option (List SimpleJourney)
  timestamp : Int
deriving DecidableEq

/-- The two-slot cache `{stpLinz, linzStp}` (server.js lines 160-163). -/
structure CacheState where
  stpLinz : CacheEntry
  linzStp : CacheEntry
deriving DecidableEq

/-- Cache-key selection of `getJourneys` (`true` = `stpLinz`). -/
def cacheKeyFor (fromId toId : String) : Option Bool :=
  if fromId = "8103002" ∧ toId = "8100009" then some true
  else if fromId = "8100009" ∧ toId = "8103002" then some false
  else none

def readKey (st : CacheState) (k : Bool) : CacheEntry :=
  if k then st.stpLinz else st.linzStp

def writeKey (st : CacheState) (k : Option Bool) (e : CacheEntry) : CacheState :=
  match k with
  | some true => { st with stpLinz := e }
  | some false => { st with linzStp := e }
  | none => st

/-- Embedding of `getJourneys(fromId, toId)` (server.js lines 166-199).  `outcome` is the
result of `hafas.journeys`; on a throw the `catch` logs and returns `[]`. -/
def getJourneys (st : CacheState) (cacheDuration nowMs : Int)
    (fromId toId : String) (outcome : Except Unit (List HafasJourney)) :
    List SimpleJourney × CacheState :=
  let cacheKey := cacheKeyFor fromId toId
  let fresh : Bool :=
    match cacheKey with
    | some k =>
      (readKey st k).data.isSome && decide (nowMs - (readKey st k).timestamp < cacheDuration)
    | none => false
  if fresh then
    (match cacheKey with
     | some k => ((readKey st k).data.getD [], st)
     | none => ([], st))
  else
    match outcome with
    | Except.ok journeys =>
      let filtered :=
        (journeys.filter fun j =>
          j.legs.headI.departure - nowMs ≤ 4 * 60 * 60 * 1000).take 3
      let transformed := filtered.map transformJourney
      (transformed, writeKey st cacheKey ⟨some transformed, nowMs⟩)
    | Except.error _ => ([], st)

end V2

/-! ## V3: oebb-hafas variant (server.js lines 240-518) -/

namespace V3

/-- Embedding of `getTrainType(productName)` (server.js lines 343-360). -/
def getTrainType (productName : String) : String :=
  if productName = "" then "Train"
  else
    let name := productName.toLower
    if strIncludes name "rjx" then "RJX"
    else if strIncludes name "railjet" || strIncludes name "rj" then "RJ"
    else if strIncludes name "ice" then "ICE"
    else if strIncludes name "ic" then "IC"
    else if strIncludes name "westbahn" || strIncludes name "wb" then "WB"
    else if strIncludes name "nightjet" || strIncludes name "nj" then "NJ"
    else if strIncludes name "rex" then "REX"
    else if strIncludes name "regionalzug" || strIncludes name "r " then "R"
    else if strIncludes name "s-bahn" || strIncludes name "s " then "S"
    else if strIncludes name "d " || strIncludes name "schnellzug" then "D"
    else "Train"

structure HafasLeg where
  line : Option V2.HafasLine
  departure : Int
  arrival : Int
  departurePlatform : Option String
  departureDelay : Option ℚ
deriving DecidableEq

instance : Inhabited HafasLeg := ⟨⟨none, 0, 0, none, none⟩⟩

structure HafasJourney where
  legs : List HafasLeg
deriving DecidableEq

/-- The per-journey transform inside `fetchRealTrainData` (server.js lines
290-333).  `fmtLocal` abstracts the JS builtin
`Date.toLocaleTimeString('de-AT', ...)`, which depends on the host timezone
database and is passed in as a parameter. -/
def mkLeg (fmtLocal : Int → String) (journey : HafasJourney) : Train :=
  let firstLeg := journey.legs.headI
  let lineName := firstLeg.line.bind fun l => l.name
  let productName := (firstLeg.line.bind fun l => l.product).bind fun p => p.ty
  let departureDelay : ℚ := firstLeg.departureDelay.getD 0
  let delayMinutes := jsRound (departureDelay / 60)
  let status :=
    if delayMinutes > 0 then
      (if delayMinutes ≤ 5 then "slightly-delayed" else "delayed")
    else "on-time"
  { departure := fmtLocal firstLeg.departure
    arrival := fmtLocal firstLeg.arrival
    trainType := getTrainType (jsOr productName (jsOr lineName "Train"))
    trainNumber := jsOr lineName "Unknown"
    delay := delayMinutes
    status := status
    platform := jsOr firstLeg.departurePlatform "?" }

/-- The cap-and-transform step of `fetchRealTrainData`
(`journeys.journeys.slice(0, 3).map(...)`, server.js line 290). -/
def transformJourneys (fmtLocal : Int → String) (journeys : List HafasJourney) :
    List Train :=
  (journeys.take 3).map (mkLeg fmtLocal)

/-- Embedding of `getFallbackData(route)` (server.js lines 363-393). -/
def getFallbackData (route : String) (currentHour currentMinute : Nat) :
    List Train :=
  (List.range 3).map fun i =>
    let depHour := currentHour + i
    let depMinute := currentMinute + i * 15
    let finalHour := (depHour * 60 + depMinute) / 60 % 24
    let finalMinute := (depHour * 60 + depMinute) % 60
    let arrivalTime := finalHour * 60 + finalMinute + 71
    let arrHour := arrivalTime / 60 % 24
    let arrMin := arrivalTime % 60
    { departure := fmtHM finalHour finalMinute
      arrival := fmtHM arrHour arrMin
      trainType := "RJ"
      trainNumber := "RJ " ++ toString (540 + i * 2)
      delay := 0
      status := "scheduled"
      platform := if route = "stpoelten-linz" then "2" else "1" }

structure CacheEntry where
  data : Option (List Train)
  timestamp : Int
deriving DecidableEq

/-- Embedding of `getJourneys(fromId, toId, cacheKey)` (server.js lines 395-429) for the
cache slot named by `cacheKey`.  `outcome` is the result of
`fetchRealTrainData` (which throws on any failure, including "no journeys").
The third component records whether `fetchRealTrainData` was invoked. -/
def getJourneys (c : CacheEntry) (cacheDuration nowMs : Int)
    (outcome : Except Unit (List Train)) (cacheKey : String)
    (currentHour currentMinute : Nat) : List Train × CacheEntry × Bool :=
  if c.data.isSome ∧ nowMs - c.timestamp < cacheDuration then
    (c.data.getD [], c, false)
  else
    match outcome with
    | Except.ok trains => (trains, ⟨some trains, nowMs⟩, true)
    | Except.error _ =>
      if c.data.isSome then (c.data.getD [], c, true)
      else (getFallbackData cacheKey currentHour currentMinute, c, true)

end V3

/-! ## Shared synthetic-generator machinery (V4 and the scraper variant)

Both `generateRealisticSchedule` (server.js lines 589-756) and
`getEmergencyFallback` (part_000 lines 447-597) run the same loop: scan the
schedule pattern, keep entries strictly after "now" while fewer than 3 are
collected, and draw a random delay per kept entry with rush-hour thresholds
0.7 / multiplier 12 and off-peak 0.85 / multiplier 8. -/

/-- Rush-hour test `(currentHour >= 7 && currentHour <= 9) || (currentHour >= 17 && currentHour <= 19)`. -/
def isRushHour (currentHour : Nat) : Bool :=
  (7 ≤ currentHour && currentHour ≤ 9) || (17 ≤ currentHour && currentHour ≤ 19)

/-- The delay draw for one kept entry: `pr.1` is the probability draw, `pr.2`
the magnitude draw (`Math.floor(Math.random() * mult) + 1`). -/
def drawDelay (rush : Bool) (pr : ℚ × ℚ) : Int :=
  if rush then (if pr.1 > 7 / 10 then Int.floor (pr.2 * 12) + 1 else 0)
  else (if pr.1 > 85 / 100 then Int.floor (pr.2 * 8) + 1 else 0)

/-- The "next 3 trains after now" selection loop, keeping each kept entry
paired with its drawn delay.  `c` is the number already collected. -/
def pickNext3 {α : Type} (entryMin : α → Nat) (rush : Bool) (now : Nat)
    (rand : Nat → ℚ × ℚ) : List α → Nat → List (α × Int)
  | [], _ => []
  | e :: es, c =>
    if entryMin e > now ∧ c < 3 then
      (e, drawDelay rush (rand c)) :: pickNext3 entryMin rush now rand es (c + 1)
    else pickNext3 entryMin rush now rand es c

/-! ## V4: multi-method real-time variant (server.js lines 518-945) -/

namespace V4

/-- One entry of the V4 `schedulePattern` tables:
`{hour, minute, type, duration, platform}`. -/
structure SchedEntry where
  hour : Nat
  minute : Nat
  ty : String
  duration : Nat
  platform : String
deriving DecidableEq

def entryMin (e : SchedEntry) : Nat := e.hour * 60 + e.minute

/-- The St. Pölten → Linz pattern (server.js lines 602-637). -/
def schedulePatternStpLinz : List SchedEntry :=
  [⟨5, 42, "RJ", 71, "2"⟩, ⟨6, 42, "RJ", 71, "2"⟩, ⟨7, 12, "WB", 68, "1"⟩,
   ⟨7, 42, "RJ", 71, "2"⟩, ⟨8, 12, "WB", 68, "1"⟩, ⟨8, 42, "RJ", 71, "2"⟩,
   ⟨9, 12, "WB", 68, "1"⟩, ⟨9, 42, "RJ", 71, "2"⟩, ⟨10, 12, "WB", 68, "1"⟩,
   ⟨10, 42, "RJ", 71, "2"⟩, ⟨11, 12, "WB", 68, "1"⟩, ⟨11, 42, "RJ", 71, "2"⟩,
   ⟨12, 12, "WB", 68, "1"⟩, ⟨12, 42, "RJ", 71, "2"⟩, ⟨13, 12, "WB", 68, "1"⟩,
   ⟨13, 42, "RJ", 71, "2"⟩, ⟨14, 12, "WB", 68, "1"⟩, ⟨14, 42, "RJ", 71, "2"⟩,
   ⟨15, 12, "WB", 68, "1"⟩, ⟨15, 42, "RJ", 71, "2"⟩, ⟨16, 12, "WB", 68, "1"⟩,
   ⟨16, 42, "RJ", 71, "2"⟩, ⟨17, 12, "WB", 68, "1"⟩, ⟨17, 42, "RJ", 71, "2"⟩,
   ⟨18, 12, "WB", 68, "1"⟩, ⟨18, 42, "RJ", 71, "2"⟩, ⟨19, 12, "WB", 68, "1"⟩,
   ⟨19, 42, "RJ", 71, "2"⟩, ⟨20, 12, "WB", 68, "1"⟩, ⟨20, 42, "RJ", 71, "2"⟩,
   ⟨21, 12, "WB", 68, "1"⟩, ⟨21, 42, "RJ", 71, "2"⟩, ⟨22, 42, "RJ", 71, "2"⟩]

/-- The Linz → St. Pölten pattern (server.js lines 640-674). -/
def schedulePatternLinzStp : List SchedEntry :=
  [⟨5, 7, "RJ", 71, "1"⟩, ⟨6, 7, "RJ", 71, "1"⟩, ⟨6, 48, "WB", 68, "4"⟩,
   ⟨7, 7, "RJ", 71, "1"⟩, ⟨7, 48, "WB", 68, "4"⟩, ⟨8, 7, "RJ", 71, "1"⟩,
   ⟨8, 48, "WB", 68, "4"⟩, ⟨9, 7, "RJ", 71, "1"⟩, ⟨9, 48, "WB", 68, "4"⟩,
   ⟨10, 7, "RJ", 71, "1"⟩, ⟨10, 48, "WB", 68, "4"⟩, ⟨11, 7, "RJ", 71, "1"⟩,
   ⟨11, 48, "WB", 68, "4"⟩, ⟨12, 7, "RJ", 71, "1"⟩, ⟨12, 48, "WB", 68, "4"⟩,
   ⟨13, 7, "RJ", 71, "1"⟩, ⟨13, 48, "WB", 68, "4"⟩, ⟨14, 7, "RJ", 71, "1"⟩,
   ⟨14, 48, "WB", 68, "4"⟩, ⟨15, 7, "RJ", 71, "1"⟩, ⟨15, 48, "WB", 68, "4"⟩,
   ⟨16, 7, "RJ", 71, "1"⟩, ⟨16, 48, "WB", 68, "4"⟩, ⟨17, 7, "RJ", 71, "1"⟩,
   ⟨17, 48, "WB", 68, "4"⟩, ⟨18, 7, "RJ", 71, "1"⟩, ⟨18, 48, "WB", 68, "4"⟩,
   ⟨19, 7, "RJ", 71, "1"⟩, ⟨19, 48, "WB", 68, "4"⟩, ⟨20, 7, "RJ", 71, "1"⟩,
   ⟨20, 48, "WB", 68, "4"⟩, ⟨21, 7, "RJ", 71, "1"⟩, ⟨22, 7, "RJ", 71, "1"⟩]

/-- Pattern selection at the top of `generateRealisticSchedule`
(server.js line 600). -/
def patternFor (fromStation toStation : String) : List SchedEntry :=
  if fromStation = "St. Pölten" ∧ toStation = "Linz" then schedulePatternStpLinz
  else schedulePatternLinzStp

/-- Embedding of `generateTrainNumber(type, hour, minute)` (server.js lines 758-778). -/
def generateTrainNumber (ty : String) (hour minute : Nat) : String :=
  if ty = "RJ" then
    "RJ " ++ toString (540 + hour % 12 * 2 + (if minute > 30 then 1 else 0))
  else if ty = "WB" then
    "WB " ++ toString (8640 + hour % 12 * 2 + (if minute > 30 then 1 else 0))
  else if ty = "RJX" then "RJX " ++ toString (760 + hour % 8 * 2)
  else if ty = "IC" then "IC " ++ toString (500 + hour % 10 * 2)
  else ty ++ " " ++ toString hour ++ toString minute

/-- Leg construction for a kept today-entry (server.js lines 685-723):
`arrivalMinutes = (trainTotalMinutes + duration) % (24*60)`. -/
def mkTodayLeg (e : SchedEntry) (delay : Int) : Train :=
  let arrivalMinutes := (entryMin e + e.duration) % (24 * 60)
  { departure := fmtHM e.hour e.minute
    arrival := fmtHM (arrivalMinutes / 60) (arrivalMinutes % 60)
    trainType := e.ty
    trainNumber := generateTrainNumber e.ty e.hour e.minute
    delay := delay
    status :=
      if delay > 0 then (if delay ≤ 5 then "slightly-delayed" else "delayed")
      else "on-time"
    platform := e.platform }

/-- Leg construction for a wrapped-to-tomorrow entry (server.js lines
730-751): `arrivalMinutes = hour*60 + minute + duration` without the day mod,
then `arrivalHour = Math.floor(arrivalMinutes / 60) % 24`. -/
def mkWrapLeg (e : SchedEntry) : Train :=
  let arrivalMinutes := entryMin e + e.duration
  { departure := fmtHM e.hour e.minute
    arrival := fmtHM (arrivalMinutes / 60 % 24) (arrivalMinutes % 60)
    trainType := e.ty
    trainNumber := generateTrainNumber e.ty e.hour e.minute
    delay := 0
    status := "scheduled"
    platform := e.platform }

/-- Embedding of `generateRealisticSchedule(fromStation, toStation)` (server.js lines
589-756).  `rand i` supplies the random draws for the i-th kept train. -/
def generateRealisticSchedule (fromStation toStation : String)
    (currentHour currentMinute : Nat) (rand : Nat → ℚ × ℚ) : List Train :=
  let schedulePattern := patternFor fromStation toStation
  let rush := isRushHour currentHour
  let currentTotalMinutes := currentHour * 60 + currentMinute
  let nextTrains :=
    (pickNext3 entryMin rush currentTotalMinutes rand schedulePattern 0).map
      fun p => mkTodayLeg p.1 p.2
  if nextTrains.length < 3 then
    nextTrains ++ (schedulePattern.take (3 - nextTrains.length)).map mkWrapLeg
  else nextTrains

structure CacheEntry where
  data : Option (List Train)
  source : Option String
  timestamp : Int
deriving DecidableEq

/-- The value produced by a successful `fetchRealTrainData`. -/
structure FetchResult where
  trains : List Train
  source : String
deriving DecidableEq

/-- A strategy outcome that yields no usable data: it threw, returned null, or
returned an empty list. -/
def strategyEmpty (s : Except Unit (Option (List Train))) : Prop :=
  match s with
  | Except.ok r => (r.getD []).length = 0
  | Except.error _ => True

/-- Embedding of `fetchRealTrainData(fromStation, toStation, direction)`
(server.js lines 535-564).  `s1` is the web-scraping attempt, `s2` the
third-party attempt; each strategy's error is caught by its own `try`/`catch`
and a non-empty result returns with source `'oebb-web'` or `'third-party'`.
On fall-through the function returns `generateRealisticSchedule` output with
source `'realistic-schedule'` — it is total and never throws. -/
def fetchRealTrainData (s1 s2 : Except Unit (Option (List Train)))
    (fromStation toStation : String) (currentHour currentMinute : Nat)
    (rand : Nat → ℚ × ℚ) : FetchResult :=
  let enhanced : FetchResult :=
    ⟨generateRealisticSchedule fromStation toStation currentHour currentMinute
       rand, "realistic-schedule"⟩
  let second : FetchResult :=
    match s2 with
    | Except.ok thirdPartyData =>
      if (thirdPartyData.getD []).length > 0 then
        ⟨thirdPartyData.getD [], "third-party"⟩
      else enhanced
    | Except.error _ => enhanced
  match s1 with
  | Except.ok realData =>
    if (realData.getD []).length > 0 then ⟨realData.getD [], "oebb-web"⟩
    else second
  | Except.error _ => second

/-- The `{trains, source, cached}` object returned by V4's `getJourneys`. -/
structure JourneysResult where
  trains : List Train
  source : String
  cached : Bool
deriving DecidableEq

/-- Embedding of `getJourneys(fromStation, toStation, cacheKey)` (server.js lines 780-833)
for the cache slot named by the key.  The third component records whether
`fetchRealTrainData` was invoked. -/
def getJourneys (c : CacheEntry) (cacheDuration nowMs : Int)
    (outcome : Except Unit FetchResult) (fromStation toStation : String)
    (currentHour currentMinute : Nat) (rand : Nat → ℚ × ℚ) :
    JourneysResult × CacheEntry × Bool :=
  if c.data.isSome ∧ nowMs - c.timestamp < cacheDuration then
    (⟨c.data.getD [], jsStr c.source, true⟩, c, false)
  else
    match outcome with
    | Except.ok result =>
      (⟨result.trains, result.source, false⟩,
       ⟨some result.trains, some result.source, nowMs⟩, true)
    | Except.error _ =>
      if c.data.isSome then
        (⟨c.data.getD [], jsStr c.source ++ "-stale", true⟩, c, true)
      else
        (⟨generateRealisticSchedule fromStation toStation currentHour
            currentMinute rand, "emergency-fallback", false⟩, c, true)

end V4

/-! ## Scraper variant (src/unnamed/part_000) -/

namespace Scraper

/-- Embedding of `extractTrainType(trainName)` (part_000 lines 427-444). -/
def extractTrainType (trainName : String) : String :=
  if trainName = "" then "Train"
  else
    let name := trainName.toUpper
    if strIncludes name "RJX" then "RJX"
    else if strIncludes name "RJ" then "RJ"
    else if strIncludes name "ICE" then "ICE"
    else if strIncludes name "IC " || name.startsWith "IC" then "IC"
    else if strIncludes name "WESTBAHN" || strIncludes name "WB" then "WB"
    else if strIncludes name "NIGHTJET" || strIncludes name "NJ" then "NJ"
    else if strIncludes name "REX" then "REX"
    else if strIncludes name "D " then "D"
    else if strIncludes name "S " then "S"
    else if strIncludes name "R " then "R"
    else "Train"

/-- Embedding of `formatMgateTime(timeString)` (part_000 lines 413-425): take `HH:MM` out
of a HAFAS `HHMM(SS)` string; strings shorter than 4 characters give
`"??:??"` (for length ≥ 4, `padStart(4, '0')` is the identity). -/
def formatMgateTime (timeString : String) : String :=
  if timeString.data.length < 4 then "??:??"
  else
    String.mk (timeString.data.take 2) ++ ":" ++
      String.mk ((timeString.data.drop 2).take 2)

/-- Rendering of `s.replace(':', '')` on a clock string. -/
def dropColon (s : String) : String := String.mk (s.data.filter fun c => c ≠ ':')

/-- The leg built by `parseOebbHtml` for one matched table row (part_000 lines
245-278), given the matched departure-time string, the extracted delay and the
matched train designator.  The regex guarantees `depTime` has shape
`\d{1,2}:\d{2}`; on any other string the row is skipped (`none`). -/
def parseOebbRowLeg (depTime : String) (delay : Int) (trainInfo : Option String) :
    Option Train :=
  match parseClock depTime with
  | none => none
  | some (depHour, depMin) =>
    let journeyMinutes := 71
    let totalMinutes := (depHour * 60 + depMin + journeyMinutes) % (24 * 60)
    let trainType := match trainInfo with
      | some ti => extractTrainType ti
      | none => "Train"
    some
      { departure := depTime
        arrival := fmtHM (totalMinutes / 60) (totalMinutes % 60)
        trainType := trainType
        trainNumber := jsOr trainInfo (trainType ++ " " ++ dropColon depTime)
        delay := delay
        status :=
          if delay > 0 then (if delay ≤ 5 then "slightly-delayed" else "delayed")
          else "on-time"
        platform := "?" }

/-- Shape of a `prodL` entry used by `parseMgateResponse`. -/
structure MgateProd where
  name : Option String
  nameS : Option String
deriving DecidableEq

/-- Shape of `firstSection.dep`: `dTimeS`, `prodX`, `dDelay` (seconds), `dPlatfS`. -/
structure MgateDep where
  dTimeS : String
  prodX : Nat
  dDelay : Option ℚ
  dPlatfS : Option String
deriving DecidableEq

structure MgateArr where
  aTimeS : String
deriving DecidableEq

structure MgateSec where
  dep : Option MgateDep
  arr : Option MgateArr
deriving DecidableEq

structure MgateCon where
  secL : List MgateSec
deriving DecidableEq

structure MgateCommon where
  prodL : List MgateProd
deriving DecidableEq

structure MgateRes where
  outConL : List MgateCon
  common : MgateCommon
deriving DecidableEq

structure MgateSvc where
  res : Option MgateRes
deriving DecidableEq

structure MgateData where
  svcResL : List MgateSvc
deriving DecidableEq

/-- The leg built by `parseMgateResponse` for one journey's first section
(part_000 lines 374-397). -/
def mkMgateLeg (prodL : List MgateProd) (d : MgateDep) (a : MgateArr) : Train :=
  let product := prodL.getD d.prodX ⟨none, none⟩
  let trainName := jsOr product.name (jsOr product.nameS "Train")
  let depDelay : ℚ := d.dDelay.getD 0
  let delay := jsRound (depDelay / 60)
  { departure := formatMgateTime d.dTimeS
    arrival := formatMgateTime a.aTimeS
    trainType := extractTrainType trainName
    trainNumber := trainName
    delay := delay
    status :=
      if delay > 0 then (if delay ≤ 5 then "slightly-delayed" else "delayed")
      else "on-time"
    platform := jsOr d.dPlatfS "?" }

/-- Embedding of `parseMgateResponse(data)` (part_000 lines 362-411):
`data.svcResL[0].res.outConL.slice(0, 3)`, one leg per journey whose first
section carries both `dep` and `arr`. -/
def parseMgateResponse (data : MgateData) : List Train :=
  match data.svcResL.head? with
  | none => []
  | some svc =>
    match svc.res with
    | none => []
    | some r =>
      (r.outConL.take 3).filterMap fun journey =>
        journey.secL.head?.bind fun firstSection =>
          firstSection.dep.bind fun d =>
            firstSection.arr.map fun a => mkMgateLeg r.common.prodL d a

/-- One entry of the `getEmergencyFallback` schedule tables:
`{hour, minute, type, number, duration, platform}`. -/
structure EfEntry where
  hour : Nat
  minute : Nat
  ty : String
  number : String
  duration : Nat
  platform : String
deriving DecidableEq

def efEntryMin (e : EfEntry) : Nat := e.hour * 60 + e.minute

/-- Table `schedules['St. Pölten-Linz']` (part_000 lines 457-490). -/
def efScheduleStpLinz : List EfEntry :=
  [⟨5, 42, "RJ", "RJ 540", 71, "2"⟩, ⟨6, 42, "RJ", "RJ 542", 71, "2"⟩,
   ⟨7, 12, "WB", "WB 8640", 68, "1"⟩, ⟨7, 42, "RJ", "RJ 544", 71, "2"⟩,
   ⟨8, 12, "WB", "WB 8642", 68, "1"⟩, ⟨8, 42, "RJ", "RJ 546", 71, "2"⟩,
   ⟨9, 12, "WB", "WB 8644", 68, "1"⟩, ⟨9, 42, "RJ", "RJ 548", 71, "2"⟩,
   ⟨10, 12, "WB", "WB 8646", 68, "1"⟩, ⟨10, 42, "RJ", "RJ 550", 71, "2"⟩,
   ⟨11, 12, "WB", "WB 8648", 68, "1"⟩, ⟨11, 42, "RJ", "RJ 552", 71, "2"⟩,
   ⟨12, 12, "WB", "WB 8650", 68, "1"⟩, ⟨12, 42, "RJ", "RJ 554", 71, "2"⟩,
   ⟨13, 12, "WB", "WB 8652", 68, "1"⟩, ⟨13, 42, "RJ", "RJ 556", 71, "2"⟩,
   ⟨14, 12, "WB", "WB 8654", 68, "1"⟩, ⟨14, 42, "RJ", "RJ 558", 71, "2"⟩,
   ⟨15, 12, "WB", "WB 8656", 68, "1"⟩, ⟨15, 42, "RJ", "RJ 560", 71, "2"⟩,
   ⟨16, 12, "WB", "WB 8658", 68, "1"⟩, ⟨16, 42, "RJ", "RJ 562", 71, "2"⟩,
   ⟨17, 12, "WB", "WB 8660", 68, "1"⟩, ⟨17, 42, "RJ", "RJ 564", 71, "2"⟩,
   ⟨18, 12, "WB", "WB 8662", 68, "1"⟩, ⟨18, 42, "RJ", "RJ 566", 71, "2"⟩,
   ⟨19, 12, "WB", "WB 8664", 68, "1"⟩, ⟨19, 42, "RJ", "RJ 568", 71, "2"⟩,
   ⟨20, 12, "WB", "WB 8666", 68, "1"⟩, ⟨20, 42, "RJ", "RJ 570", 71, "2"⟩,
   ⟨21, 12, "WB", "WB 8668", 68, "1"⟩, ⟨21, 42, "RJ", "RJ 572", 71, "2"⟩]

/-- Table `schedules['Linz-St. Pölten']` (part_000 lines 491-524). -/
def efScheduleLinzStp : List EfEntry :=
  [⟨5, 7, "RJ", "RJ 541", 71, "1"⟩, ⟨6, 7, "RJ", "RJ 543", 71, "1"⟩,
   ⟨6, 48, "WB", "WB 8641", 68, "4"⟩, ⟨7, 7, "RJ", "RJ 545", 71, "1"⟩,
   ⟨7, 48, "WB", "WB 8643", 68, "4"⟩, ⟨8, 7, "RJ", "RJ 547", 71, "1"⟩,
   ⟨8, 48, "WB", "WB 8645", 68, "4"⟩, ⟨9, 7, "RJ", "RJ 549", 71, "1"⟩,
   ⟨9, 48, "WB", "WB 8647", 68, "4"⟩, ⟨10, 7, "RJ", "RJ 551", 71, "1"⟩,
   ⟨10, 48, "WB", "WB 8649", 68, "4"⟩, ⟨11, 7, "RJ", "RJ 553", 71, "1"⟩,
   ⟨11, 48, "WB", "WB 8651", 68, "4"⟩, ⟨12, 7, "RJ", "RJ 555", 71, "1"⟩,
   ⟨12, 48, "WB", "WB 8653", 68, "4"⟩, ⟨13, 7, "RJ", "RJ 557", 71, "1"⟩,
   ⟨13, 48, "WB", "WB 8655", 68, "4"⟩, ⟨14, 7, "RJ", "RJ 559", 71, "1"⟩,
   ⟨14, 48, "WB", "WB 8657", 68, "4"⟩, ⟨15, 7, "RJ", "RJ 561", 71, "1"⟩,
   ⟨15, 48, "WB", "WB 8659", 68, "4"⟩, ⟨16, 7, "RJ", "RJ 563", 71, "1"⟩,
   ⟨16, 48, "WB", "WB 8661", 68, "4"⟩, ⟨17, 7, "RJ", "RJ 565", 71, "1"⟩,
   ⟨17, 48, "WB", "WB 8663", 68, "4"⟩, ⟨18, 7, "RJ", "RJ 567", 71, "1"⟩,
   ⟨18, 48, "WB", "WB 8665", 68, "4"⟩, ⟨19, 7, "RJ", "RJ 569", 71, "1"⟩,
   ⟨19, 48, "WB", "WB 8667", 68, "4"⟩, ⟨20, 7, "RJ", "RJ 571", 71, "1"⟩,
   ⟨20, 48, "WB", "WB 8669", 68, "4"⟩, ⟨21, 7, "RJ", "RJ 573", 71, "1"⟩]

/-- Lookup `schedules[scheduleKey] || []` for `scheduleKey = fromStation + '-' + toStation`. -/
def efScheduleFor (fromStation toStation : String) : List EfEntry :=
  if fromStation ++ "-" ++ toStation = "St. Pölten-Linz" then efScheduleStpLinz
  else if fromStation ++ "-" ++ toStation = "Linz-St. Pölten" then efScheduleLinzStp
  else []

/-- Leg construction for a kept today-entry of `getEmergencyFallback`
(part_000 lines 536-566). -/
def mkEfLeg (e : EfEntry) (delay : Int) : Train :=
  let arrivalMinutes := (efEntryMin e + e.duration) % (24 * 60)
  { departure := fmtHM e.hour e.minute
    arrival := fmtHM (arrivalMinutes / 60) (arrivalMinutes % 60)
    trainType := e.ty
    trainNumber := e.number
    delay := delay
    status :=
      if delay > 0 then (if delay ≤ 5 then "slightly-delayed" else "delayed")
      else "on-time"
    platform := e.platform }

/-- Leg construction for a wrapped-to-tomorrow entry of `getEmergencyFallback`
(part_000 lines 575-592). -/
def mkEfWrapLeg (e : EfEntry) : Train :=
  let arrivalMinutes := efEntryMin e + e.duration
  { departure := fmtHM e.hour e.minute
    arrival := fmtHM (arrivalMinutes / 60 % 24) (arrivalMinutes % 60)
    trainType := e.ty
    trainNumber := e.number
    delay := 0
    status := "scheduled"
    platform := e.platform }

/-- Embedding of `getEmergencyFallback(fromStation, toStation)` (part_000 lines 447-597). -/
def getEmergencyFallback (fromStation toStation : String)
    (currentHour currentMinute : Nat) (rand : Nat → ℚ × ℚ) : List Train :=
  let schedule := efScheduleFor fromStation toStation
  let rush := isRushHour currentHour
  let totalMinutes := currentHour * 60 + currentMinute
  let nextTrains :=
    (pickNext3 efEntryMin rush totalMinutes rand schedule 0).map
      fun p => mkEfLeg p.1 p.2
  if nextTrains.length < 3 then
    nextTrains ++ (schedule.take (3 - nextTrains.length)).map mkEfWrapLeg
  else nextTrains

/-- How a call of `scrapeOebbData` can fail: the busy throw at line 19, the
`'All scraping methods failed'` throw at line 48, or an exception escaping a
strategy. -/
inductive ScrapeError where
  | busy
  | allFailed
  | thrown
deriving DecidableEq

/-- The `try` block of `scrapeOebbData` (part_000 lines 26-49): the cascade
over the three strategies.  Each strategy yields `.ok none` (returned `null`),
`.ok (some trains)` (possibly empty), or `.error ()` (a hypothetical escaped
exception; as written, each strategy catches its own errors and returns
`null`). -/
def scrapeBody (s1 s2 s3 : Except Unit (Option (List Train))) :
    Except ScrapeError (List Train) :=
  match s1 with
  | Except.error _ => Except.error ScrapeError.thrown
  | Except.ok r1 =>
    if (r1.getD []).length > 0 then Except.ok (r1.getD [])
    else
      match s2 with
      | Except.error _ => Except.error ScrapeError.thrown
      | Except.ok r2 =>
        if (r2.getD []).length > 0 then Except.ok (r2.getD [])
        else
          match s3 with
          | Except.error _ => Except.error ScrapeError.thrown
          | Except.ok r3 =>
            if (r3.getD []).length > 0 then Except.ok (r3.getD [])
            else Except.error ScrapeError.allFailed

/-- Embedding of `scrapeOebbData(fromStation, toStation)` (part_000 lines 14-53).
`gate0` is `isScrapingInProgress` on entry; `gateAfterWait` is its value after
the 2-second wait (only relevant when `gate0` is true).  The second component
is the value of `isScrapingInProgress` after the call finishes: the `finally`
block resets it on every exit path of the acquired section, while the busy
throw happens before acquisition and leaves the other caller's gate in place. -/
def scrapeOebbData (gate0 gateAfterWait : Bool)
    (s1 s2 s3 : Except Unit (Option (List Train))) :
    Except ScrapeError (List Train) × Bool :=
  if gate0 then
    if gateAfterWait then (Except.error ScrapeError.busy, gateAfterWait)
    else (scrapeBody s1 s2 s3, false)
  else (scrapeBody s1 s2 s3, false)

/-- The observable part of a `/trains/...` route handler's response (the
constant `route`/`timestamp`/`error` fields are omitted). -/
structure TrainsResponse where
  status : Nat
  trains : List Train
  source : String
  realTimeData : Bool
deriving DecidableEq

/-- The `/trains/stpoelten-linz` and `/trains/linz-stpoelten` route handlers
(part_000 lines 600-631 and 633-664), which differ only in the station pair.
Returns the response together with the gate value after the request. -/
def trainsRouteHandler (fromStation toStation : String)
    (gate0 gateAfterWait : Bool) (s1 s2 s3 : Except Unit (Option (List Train)))
    (currentHour currentMinute : Nat) (rand : Nat → ℚ × ℚ) :
    TrainsResponse × Bool :=
  let scraped := scrapeOebbData gate0 gateAfterWait s1 s2 s3
  match scraped.1 with
  | Except.ok trains =>
    if trains.length > 0 then
      (⟨200, trains, "live-scraping", true⟩, scraped.2)
    else
      (⟨200, getEmergencyFallback fromStation toStation currentHour
          currentMinute rand, "realistic-fallback", false⟩, scraped.2)
  | Except.error _ =>
    (⟨200, getEmergencyFallback fromStation toStation currentHour
        currentMinute rand, "realistic-fallback", false⟩, scraped.2)

end Scraper

/-! ## Helper lemmas -/

set_option maxHeartbeats 2000000 in
theorem parseHHMM_fmtHM :
    ∀ h : Nat, h < 24 → ∀ m : Nat, m < 60 →
      parseHHMM (fmtHM h m) = some (h * 60 + m) := by decide

theorem parseHHMM_fmtTime {m : Nat} (hm : m < 1440) :
    parseHHMM (fmtTime m) = some m := by
  have h1 : m / 60 < 24 := Nat.div_lt_of_lt_mul (by omega)
  have h2 : m % 60 < 60 := Nat.mod_lt _ (by omega)
  have h3 := parseHHMM_fmtHM (m / 60) h1 (m % 60) h2
  rw [fmtTime, h3]
  congr 1
  omega

theorem fmtHM_eq_fmtTime (h : Nat) {m : Nat} (hm : m < 60) :
    fmtHM h m = fmtTime (h * 60 + m) := by
  rw [fmtTime]
  congr 1
  · omega
  · omega

theorem fmtHM_wrap_eq_fmtTime (x : Nat) :
    fmtHM (x / 60 % 24) (x % 60) = fmtTime (x % 1440) := by
  rw [fmtTime]
  congr 1
  · omega
  · omega

theorem drawDelay_nonneg (rush : Bool) {pr : ℚ × ℚ} (h0 : 0 ≤ pr.2) :
    0 ≤ drawDelay rush pr := by
  unfold drawDelay
  split <;> split <;> try norm_num
  · have : (0 : ℤ) ≤ Int.floor (pr.2 * 12) :=
      Int.le_floor.mpr (by push_cast; positivity)
    omega
  · have : (0 : ℤ) ≤ Int.floor (pr.2 * 8) :=
      Int.le_floor.mpr (by push_cast; positivity)
    omega

theorem drawDelay_le_twelve (rush : Bool) {pr : ℚ × ℚ} (h1 : pr.2 < 1) :
    drawDelay rush pr ≤ 12 := by
  unfold drawDelay
  split <;> split <;> try norm_num
  · have : Int.floor (pr.2 * 12) < 12 := by
      apply Int.floor_lt.mpr
      push_cast
      nlinarith
    omega
  · have : Int.floor (pr.2 * 8) < 8 := by
      apply Int.floor_lt.mpr
      push_cast
      nlinarith
    omega

theorem pickNext3_map_fst {α : Type} (entryMin : α → Nat) (rush : Bool)
    (now : Nat) (rand : Nat → ℚ × ℚ) :
    ∀ (l : List α) (c : Nat),
      (pickNext3 entryMin rush now rand l c).map Prod.fst =
        (l.filter fun e => decide (now < entryMin e)).take (3 - c) := by
  intro l
  induction l with
  | nil => intro c; simp [pickNext3]
  | cons e es ih =>
    intro c
    by_cases h1 : entryMin e > now
    · by_cases h2 : c < 3
      · have h3 : 3 - c = (3 - (c + 1)) + 1 := by omega
        rw [pickNext3, if_pos (And.intro h1 h2), h3]
        simp [ih (c + 1), List.filter_cons, h1, List.take_succ_cons]
      · have h3 : 3 - c = 0 := by omega
        rw [pickNext3, if_neg (fun hco => h2 hco.2), ih c, h3]
        simp
    · rw [pickNext3, if_neg (fun hco => h1 hco.1), ih c, List.filter_cons]
      simp [h1]

theorem pickNext3_length_le {α : Type} (entryMin : α → Nat) (rush : Bool)
    (now : Nat) (rand : Nat → ℚ × ℚ) (l : List α) :
    (pickNext3 entryMin rush now rand l 0).length ≤ 3 := by
  have h := congrArg List.length (pickNext3_map_fst entryMin rush now rand l 0)
  rw [List.length_map] at h
  rw [h]
  have h2 := List.length_take_le (3 - 0) (l.filter fun e => decide (now < entryMin e))
  omega

theorem pickNext3_mem_delay {α : Type} (entryMin : α → Nat) (rush : Bool)
    (now : Nat) (rand : Nat → ℚ × ℚ) :
    ∀ (l : List α) (c : Nat) (p : α × Int),
      p ∈ pickNext3 entryMin rush now rand l c →
        ∃ i, p.2 = drawDelay rush (rand i) := by
  intro l
  induction l with
  | nil => intro c p hp; simp [pickNext3] at hp
  | cons e es ih =>
    intro c p hp
    by_cases h1 : entryMin e > now ∧ c < 3
    · rw [pickNext3, if_pos h1] at hp
      rcases List.mem_cons.mp hp with h | h
      · exact ⟨c, by rw [h]⟩
      · exact ih (c + 1) p h
    · rw [pickNext3, if_neg h1] at hp
      exact ih c p hp

theorem pickNext3_mem_fst {α : Type} {entryMin : α → Nat} {rush : Bool}
    {now : Nat} {rand : Nat → ℚ × ℚ} {l : List α} {c : Nat} {p : α × Int}
    (hp : p ∈ pickNext3 entryMin rush now rand l c) :
    p.1 ∈ l ∧ now < entryMin p.1 := by
  have h1 : p.1 ∈ (pickNext3 entryMin rush now rand l c).map Prod.fst :=
    List.mem_map_of_mem Prod.fst hp
  rw [pickNext3_map_fst] at h1
  have h2 := List.mem_of_mem_take h1
  have h3 := List.mem_filter.mp h2
  exact ⟨h3.1, of_decide_eq_true h3.2⟩

theorem schedulePatternStpLinz_facts :
    ∀ e ∈ V4.schedulePatternStpLinz,
      e.minute < 60 ∧ V4.entryMin e < 1440 ∧ 12 ≤ V4.entryMin e ∧
        (e.duration = 68 ∨ e.duration = 71) := by decide

theorem schedulePatternLinzStp_facts :
    ∀ e ∈ V4.schedulePatternLinzStp,
      e.minute < 60 ∧ V4.entryMin e < 1440 ∧ 12 ≤ V4.entryMin e ∧
        (e.duration = 68 ∨ e.duration = 71) := by decide

theorem patternFor_facts (f t : String) :
    ∀ e ∈ V4.patternFor f t,
      e.minute < 60 ∧ V4.entryMin e < 1440 ∧ 12 ≤ V4.entryMin e ∧
        (e.duration = 68 ∨ e.duration = 71) := by
  unfold V4.patternFor
  split
  · exact schedulePatternStpLinz_facts
  · exact schedulePatternLinzStp_facts

theorem schedulePatternStpLinz_gaps :
    List.Pairwise (fun a b => V4.entryMin a + 19 ≤ V4.entryMin b)
      V4.schedulePatternStpLinz := by decide

theorem schedulePatternLinzStp_gaps :
    List.Pairwise (fun a b => V4.entryMin a + 19 ≤ V4.entryMin b)
      V4.schedulePatternLinzStp := by decide

theorem patternFor_gaps (f t : String) :
    List.Pairwise (fun a b => V4.entryMin a + 19 ≤ V4.entryMin b)
      (V4.patternFor f t) := by
  unfold V4.patternFor
  split
  · exact schedulePatternStpLinz_gaps
  · exact schedulePatternLinzStp_gaps

theorem patternFor_length (f t : String) : 3 ≤ (V4.patternFor f t).length := by
  unfold V4.patternFor
  split <;> decide

theorem efSchedule_facts (f t : String) :
    ∀ e ∈ Scraper.efScheduleFor f t,
      e.minute < 60 ∧ Scraper.efEntryMin e < 1440 ∧ 12 ≤ Scraper.efEntryMin e ∧
        (e.duration = 68 ∨ e.duration = 71) := by
  unfold Scraper.efScheduleFor
  split
  · decide
  · split
    · decide
    · intro e he; simp at he

theorem generateRealisticSchedule_length (f t : String) (ch cm : Nat)
    (rand : Nat → ℚ × ℚ) :
    (V4.generateRealisticSchedule f t ch cm rand).length = 3 := by
  have hpick := pickNext3_length_le V4.entryMin (isRushHour ch) (ch * 60 + cm)
    rand (V4.patternFor f t)
  have hpat := patternFor_length f t
  simp only [V4.generateRealisticSchedule]
  split
  · rename_i hlt
    simp only [List.length_append, List.length_map, List.length_take] at *
    omega
  · rename_i hge
    simp only [List.length_map] at *
    omega

theorem getEmergencyFallback_length_le (f t : String) (ch cm : Nat)
    (rand : Nat → ℚ × ℚ) :
    (Scraper.getEmergencyFallback f t ch cm rand).length ≤ 3 := by
  have hpick := pickNext3_length_le Scraper.efEntryMin (isRushHour ch)
    (ch * 60 + cm) rand (Scraper.efScheduleFor f t)
  simp only [Scraper.getEmergencyFallback]
  split
  · rename_i hlt
    simp only [List.length_append, List.length_map, List.length_take] at *
    omega
  · rename_i hge
    simp only [List.length_map] at *
    omega

theorem getEmergencyFallback_length (f t : String) (ch cm : Nat)
    (rand : Nat → ℚ × ℚ) (hsched : 3 ≤ (Scraper.efScheduleFor f t).length) :
    (Scraper.getEmergencyFallback f t ch cm rand).length = 3 := by
  have hpick := pickNext3_length_le Scraper.efEntryMin (isRushHour ch)
    (ch * 60 + cm) rand (Scraper.efScheduleFor f t)
  simp only [Scraper.getEmergencyFallback]
  split
  · rename_i hlt
    simp only [List.length_append, List.length_map, List.length_take] at *
    omega
  · rename_i hge
    simp only [List.length_map] at *
    omega

/-! ## Claim theorems -/

/-- C3: the single-flight gate (`isScrapingInProgress`) is released on every
exit path of an acquisition cycle.  The gate value after a `scrapeOebbData`
call is `false` (released) in every case in which the call acquired the gate —
success, all-strategies-failed, and an exception thrown by a strategy — and it
remains `gate0 && gateAfterWait` only on the busy path, where the call throws
before acquiring and the gate is the one held by the other, still-running
acquisition cycle.  In particular, any completed acquisition cycle leaves the
gate released, so gate-acquire is always paired with gate-release. -/
theorem c3_gate_always_released (gate0 gateAfterWait : Bool)
    (s1 s2 s3 : Except Unit (Option (List Train))) :
    (Scraper.scrapeOebbData gate0 gateAfterWait s1 s2 s3).2 =
      (gate0 && gateAfterWait) := by
  unfold Scraper.scrapeOebbData
  cases gate0 <;> cases gateAfterWait <;> simp

/-- C5: every component of the pipeline returns at most 3 legs: the V1
synthetic service, the mgate parser, the V4 synthetic generator, the scraper's
emergency fallback, and the V3 live transform. -/
theorem c5_display_cap (schedule : List V1.RawEntry) (currentTime : Nat)
    (rand : Nat → ℚ × ℚ) (data : Scraper.MgateData) (f t : String)
    (ch cm : Nat) (fmtLocal : Int → String)
    (journeys : List V3.HafasJourney) :
    (V1.getNextTrains schedule currentTime rand).length ≤ 3 ∧
    (Scraper.parseMgateResponse data).length ≤ 3 ∧
    (V4.generateRealisticSchedule f t ch cm rand).length ≤ 3 ∧
    (Scraper.getEmergencyFallback f t ch cm rand).length ≤ 3 ∧
    (V3.transformJourneys fmtLocal journeys).length ≤ 3 := by
  refine ⟨?_, ?_, ?_, ?_, ?_⟩
  · simp only [V1.getNextTrains]
    rw [List.length_mapIdx]
    have h1 := List.length_take_le 3 (schedule.filter fun tr =>
      match parseHHMM tr.departure with
      | some trainTime => decide (currentTime < trainTime)
      | none => false)
    split
    · rename_i hlt
      have h2 := List.length_take_le
        (3 - ((schedule.filter fun tr =>
          match parseHHMM tr.departure with
          | some trainTime => decide (currentTime < trainTime)
          | none => false).take 3).length) schedule
      simp only [List.length_append] at *
      omega
    · exact h1
  · unfold Scraper.parseMgateResponse
    split
    · simp
    · split
      · simp
      · rename_i r _
        have h1 := List.length_filterMap_le
          (fun journey => journey.secL.head?.bind fun firstSection =>
            firstSection.dep.bind fun d =>
              firstSection.arr.map fun a => Scraper.mkMgateLeg r.common.prodL d a)
          (r.outConL.take 3)
        have h2 := List.length_take_le 3 r.outConL
        omega
  · exact le_of_eq (generateRealisticSchedule_length f t ch cm rand)
  · exact getEmergencyFallback_length_le f t ch cm rand
  · simp only [V3.transformJourneys]
    rw [List.length_map]
    exact List.length_take_le 3 journeys

/-- C7: a request arriving within the TTL window after a successful fetch is
answered from the cache and invokes no acquisition attempt.  For both cached
variants (V3 and V4): the first call on an empty cache fetches (flag `true`)
and stores the payload with timestamp `t`; a second call at `t'` with
`t' - t < cacheDuration` returns exactly the cached payload, leaves the cache
unchanged, and does not invoke the fetch (flag `false`), whatever the second
fetch outcome would have been. -/
theorem c7_cache_freshness (cacheDuration t tLater : Int) (trains : List Train)
    (out2 : Except Unit (List Train)) (key : String) (ch cm : Nat)
    (result : V4.FetchResult) (out2d : Except Unit V4.FetchResult)
    (f tos : String) (rand : Nat → ℚ × ℚ)
    (hfresh : tLater - t < cacheDuration) :
    (V3.getJourneys ⟨none, 0⟩ cacheDuration t (Except.ok trains) key ch cm =
      (trains, ⟨some trains, t⟩, true)) ∧
    (V3.getJourneys ⟨some trains, t⟩ cacheDuration tLater out2 key ch cm =
      (trains, ⟨some trains, t⟩, false)) ∧
    (V4.getJourneys ⟨none, none, 0⟩ cacheDuration t (Except.ok result) f tos
        ch cm rand =
      (⟨result.trains, result.source, false⟩,
       ⟨some result.trains, some result.source, t⟩, true)) ∧
    (V4.getJourneys ⟨some result.trains, some result.source, t⟩ cacheDuration
        tLater out2d f tos ch cm rand =
      (⟨result.trains, result.source, true⟩,
       ⟨some result.trains, some result.source, t⟩, false)) := by
  refine ⟨?_, ?_, ?_, ?_⟩
  · simp [V3.getJourneys]
  · simp [V3.getJourneys, hfresh]
  · simp [V4.getJourneys]
  · simp [V4.getJourneys, hfresh, jsStr]

/-- C7 witness: concrete instance with TTL 300000, first fetch at 100,
second request at 200. -/
theorem c7_cache_freshness_witness :
    ((200 : Int) - 100 < 300000) ∧
    (V3.getJourneys ⟨some [default], 100⟩ 300000 200 (Except.error ())
        "stpLinz" 8 0 = ([default], ⟨some [default], 100⟩, false)) := by
  refine ⟨by norm_num, ?_⟩
  exact (c7_cache_freshness 300000 100 200 [default] (Except.error ())
    "stpLinz" 8 0 ⟨[default], "oebb-web"⟩ (Except.error ()) "St. Pölten" "Linz"
    (fun _ => (0, 0)) (by norm_num)).2.1

/-- C10: in the web-scraper variant, the `/trains` route handlers always
respond with HTTP status 200; every pipeline error — including the busy error
of the single-flight gate — is caught and answered with the emergency fallback
schedule, source `'realistic-fallback'` and `realTimeData = false`. -/
theorem c10_handler_always_200 (f t : String) (gate0 gateAfterWait : Bool)
    (s1 s2 s3 : Except Unit (Option (List Train))) (ch cm : Nat)
    (rand : Nat → ℚ × ℚ) :
    ((Scraper.trainsRouteHandler f t gate0 gateAfterWait s1 s2 s3 ch cm
        rand).1.status = 200) ∧
    (∀ err, (Scraper.scrapeOebbData gate0 gateAfterWait s1 s2 s3).1 =
        Except.error err →
      (Scraper.trainsRouteHandler f t gate0 gateAfterWait s1 s2 s3 ch cm
          rand).1 =
        ⟨200, Scraper.getEmergencyFallback f t ch cm rand,
         "realistic-fallback", false⟩) := by
  constructor
  · simp only [Scraper.trainsRouteHandler]
    split
    · split <;> rfl
    · rfl
  · intro err herr
    simp only [Scraper.trainsRouteHandler, herr]

/-- C10 witness: the busy path (gate held before and after the wait) is
answered 200 with the emergency fallback. -/
theorem c10_handler_always_200_witness :
    ((Scraper.trainsRouteHandler "St. Pölten" "Linz" true true
        (Except.ok none) (Except.ok none) (Except.ok none) 8 0
        (fun _ => (0, 0))).1.status = 200) ∧
    ((Scraper.trainsRouteHandler "St. Pölten" "Linz" true true
        (Except.ok none) (Except.ok none) (Except.ok none) 8 0
        (fun _ => (0, 0))).1 =
      ⟨200, Scraper.getEmergencyFallback "St. Pölten" "Linz" 8 0
          (fun _ => (0, 0)), "realistic-fallback", false⟩) := by
  have h := c10_handler_always_200 "St. Pölten" "Linz" true true
    (Except.ok none) (Except.ok none) (Except.ok none) 8 0 (fun _ => (0, 0))
  exact ⟨h.1, h.2 Scraper.ScrapeError.busy (by rfl)⟩

/-- C1 counterexample: the claim fails on the hafas-client variant
(server.js lines 166-199).  On a request for which the (only) strategy fails
and no cached payload exists, its `getJourneys` returns the empty list — it
neither returns a cached payload (there is none) nor any synthetic generator
output (all synthetic generators in this repository return nonempty lists,
e.g. `getFallbackData` and `getEmergencyFallback` below), and no payload is
tagged. -/
theorem c1_counterexample :
    ((V2.getJourneys ⟨⟨none, 0⟩, ⟨none, 0⟩⟩ 300000 0 "8103002" "8100009"
        (Except.error ())).1 = []) ∧
    V3.getFallbackData "stpLinz" 12 0 ≠ [] ∧
    Scraper.getEmergencyFallback "St. Pölten" "Linz" 12 0 (fun _ => (0, 0)) ≠
      [] := by
  refine ⟨by decide, by decide, by decide⟩

/-- C1 (amended): when every acquisition strategy yields an empty result or
an error and the cache is not fresh, the three pipelines degrade differently.
The oebb-hafas (V3) pipeline, whose fetch throws on total failure, returns
the last cached payload when present (with no tag) and otherwise the
synthetic `getFallbackData` output.  The v4 real-time pipeline never reaches
a degraded branch: its `fetchRealTrainData` catches both live strategies'
failures and returns the synthetic generator's output tagged
`'realistic-schedule'` through the normal success path, so `getJourneys`
caches that fresh synthetic payload and serves it — even when a stale cached
payload is present — and its `'-stale'` / `'emergency-fallback'` branches are
not exercised.  The hafas-client (V2) pipeline returns an empty list.  In all
variants the failure is caught: each call returns a plain value and no
exception propagates to the caller. -/
theorem c1_degraded_path (cacheDuration nowMs ts : Int) (d : List Train)
    (key : String) (ch cm : Nat) (fs tos : String)
    (rand : Nat → ℚ × ℚ) (s1 s2 : Except Unit (Option (List Train)))
    (c4 : V4.CacheEntry) (cd2 now2 : Int) (fid tid : String)
    (hstale : ¬ nowMs - ts < cacheDuration)
    (h1 : V4.strategyEmpty s1) (h2 : V4.strategyEmpty s2)
    (hstale4 : ¬ nowMs - c4.timestamp < cacheDuration) :
    (V3.getJourneys ⟨some d, ts⟩ cacheDuration nowMs (Except.error ()) key
        ch cm = (d, ⟨some d, ts⟩, true)) ∧
    (V3.getJourneys ⟨none, ts⟩ cacheDuration nowMs (Except.error ()) key
        ch cm = (V3.getFallbackData key ch cm, ⟨none, ts⟩, true)) ∧
    (V4.fetchRealTrainData s1 s2 fs tos ch cm rand =
      ⟨V4.generateRealisticSchedule fs tos ch cm rand,
       "realistic-schedule"⟩) ∧
    (V4.getJourneys c4 cacheDuration nowMs
        (Except.ok (V4.fetchRealTrainData s1 s2 fs tos ch cm rand))
        fs tos ch cm rand =
      (⟨V4.generateRealisticSchedule fs tos ch cm rand, "realistic-schedule",
         false⟩,
       ⟨some (V4.generateRealisticSchedule fs tos ch cm rand),
        some "realistic-schedule", nowMs⟩, true)) ∧
    ((V2.getJourneys ⟨⟨none, 0⟩, ⟨none, 0⟩⟩ cd2 now2 fid tid
        (Except.error ())).1 = []) := by
  have hfetch : V4.fetchRealTrainData s1 s2 fs tos ch cm rand =
      ⟨V4.generateRealisticSchedule fs tos ch cm rand,
       "realistic-schedule"⟩ := by
    unfold V4.fetchRealTrainData
    cases s1 with
    | error e1 =>
      cases s2 with
      | error e2 => rfl
      | ok r2 =>
        simp only [V4.strategyEmpty] at h2
        simp [h2]
    | ok r1 =>
      simp only [V4.strategyEmpty] at h1
      cases s2 with
      | error e2 => simp [h1]
      | ok r2 =>
        simp only [V4.strategyEmpty] at h2
        simp [h1, h2]
  refine ⟨?_, ?_, hfetch, ?_, ?_⟩
  · simp [V3.getJourneys, hstale]
  · simp [V3.getJourneys]
  · rw [hfetch]
    simp [V4.getJourneys, hstale4]
  · simp only [V2.getJourneys]
    split
    · rename_i hfr
      simp [V2.cacheKeyFor, V2.readKey] at hfr
      split at hfr <;> simp_all
    · rfl

/-- C1 witness: a concrete degraded request (TTL 90000, stale cache written at
0 and still holding data for v4, request at 400000, both strategies failing),
applying the theorem for the V3 no-cache branch and the v4 fresh-synthetic
branch. -/
theorem c1_degraded_path_witness :
    (¬ ((400000 : Int) - 0 < 90000)) ∧
    V4.strategyEmpty (Except.error ()) ∧
    V4.strategyEmpty (Except.ok none) ∧
    (V3.getJourneys ⟨none, 0⟩ 90000 400000 (Except.error ()) "stpLinz" 12 0 =
      (V3.getFallbackData "stpLinz" 12 0, ⟨none, 0⟩, true)) ∧
    (V4.getJourneys ⟨some [default], some "oebb-web", 0⟩ 90000 400000
        (Except.ok (V4.fetchRealTrainData (Except.error ()) (Except.ok none)
          "St. Pölten" "Linz" 12 0 (fun _ => (0, 0))))
        "St. Pölten" "Linz" 12 0 (fun _ => (0, 0)) =
      (⟨V4.generateRealisticSchedule "St. Pölten" "Linz" 12 0 (fun _ => (0, 0)),
         "realistic-schedule", false⟩,
       ⟨some (V4.generateRealisticSchedule "St. Pölten" "Linz" 12 0
          (fun _ => (0, 0))), some "realistic-schedule", 400000⟩, true)) := by
  have h := c1_degraded_path 90000 400000 0 [] "stpLinz" 12 0 "St. Pölten"
    "Linz" (fun _ => (0, 0)) (Except.error ()) (Except.ok none)
    ⟨some [default], some "oebb-web", 0⟩ 90000 0 "8103002" "8100009"
    (by norm_num) trivial rfl (by norm_num)
  exact ⟨by norm_num, trivial, rfl, h.2.1, h.2.2.2.1⟩

/-- The `delay > 0` form of the status computation (used by V3, V4 and the
scraper's parsers/generators) agrees with the shared classification rule on
non-negative delays. -/
theorem statusIfPos_eq_classify {d : Int} (hd : 0 ≤ d) :
    (if d > 0 then (if d ≤ 5 then "slightly-delayed" else "delayed")
     else "on-time") = classifyDelay d := by
  unfold classifyDelay
  by_cases h0 : d = 0
  · subst h0; norm_num
  · have hpos : d > 0 := lt_of_le_of_ne hd (Ne.symm h0)
    simp [h0, hpos]

/-- Every leg of `generateRealisticSchedule` is either a today-leg built from
a kept pattern entry with its drawn delay, or a wrap-leg built from a pattern
entry. -/
theorem generateRealisticSchedule_mem {fs tos : String} {ch cm : Nat}
    {rand : Nat → ℚ × ℚ} {leg : Train}
    (hleg : leg ∈ V4.generateRealisticSchedule fs tos ch cm rand) :
    (∃ p ∈ pickNext3 V4.entryMin (isRushHour ch) (ch * 60 + cm) rand
        (V4.patternFor fs tos) 0, leg = V4.mkTodayLeg p.1 p.2) ∨
    (∃ e ∈ V4.patternFor fs tos, leg = V4.mkWrapLeg e) := by
  simp only [V4.generateRealisticSchedule] at hleg
  split at hleg
  · rcases List.mem_append.mp hleg with h | h
    · rcases List.mem_map.mp h with ⟨p, hp, hpe⟩
      exact Or.inl ⟨p, hp, hpe.symm⟩
    · rcases List.mem_map.mp h with ⟨e, he, hee⟩
      exact Or.inr ⟨e, List.mem_of_mem_take he, hee.symm⟩
  · rcases List.mem_map.mp hleg with ⟨p, hp, hpe⟩
    exact Or.inl ⟨p, hp, hpe.symm⟩

/-- Every leg of `getEmergencyFallback` is either a today-leg built from a
kept pattern entry with its drawn delay, or a wrap-leg built from a pattern
entry. -/
theorem getEmergencyFallback_mem {fs tos : String} {ch cm : Nat}
    {rand : Nat → ℚ × ℚ} {leg : Train}
    (hleg : leg ∈ Scraper.getEmergencyFallback fs tos ch cm rand) :
    (∃ p ∈ pickNext3 Scraper.efEntryMin (isRushHour ch) (ch * 60 + cm) rand
        (Scraper.efScheduleFor fs tos) 0, leg = Scraper.mkEfLeg p.1 p.2) ∨
    (∃ e ∈ Scraper.efScheduleFor fs tos, leg = Scraper.mkEfWrapLeg e) := by
  simp only [Scraper.getEmergencyFallback] at hleg
  split at hleg
  · rcases List.mem_append.mp hleg with h | h
    · rcases List.mem_map.mp h with ⟨p, hp, hpe⟩
      exact Or.inl ⟨p, hp, hpe.symm⟩
    · rcases List.mem_map.mp h with ⟨e, he, hee⟩
      exact Or.inr ⟨e, List.mem_of_mem_take he, hee.symm⟩
  · rcases List.mem_map.mp hleg with ⟨p, hp, hpe⟩
    exact Or.inl ⟨p, hp, hpe.symm⟩

/-- Every leg of `parseMgateResponse` is built by `mkMgateLeg`. -/
theorem parseMgateResponse_mem {data : Scraper.MgateData} {leg : Train}
    (h : leg ∈ Scraper.parseMgateResponse data) :
    ∃ prodL d a, leg = Scraper.mkMgateLeg prodL d a := by
  unfold Scraper.parseMgateResponse at h
  split at h
  · simp at h
  · split at h
    · simp at h
    · rename_i r _
      rcases List.mem_filterMap.mp h with ⟨journey, _, heq⟩
      rcases Option.bind_eq_some.mp heq with ⟨sec, _, heq2⟩
      rcases Option.bind_eq_some.mp heq2 with ⟨d, _, heq3⟩
      rcases Option.map_eq_some'.mp heq3 with ⟨a, _, heq4⟩
      exact ⟨r.common.prodL, d, a, heq4.symm⟩

/-- C8 counterexample: the claim fails on the live transforms.  A hafas leg
with `departureDelay = -120` seconds yields `delayMinutes = -2` (negative) in
`transformJourney` (server.js line 213), and a leg with `departureDelay = 30`
seconds yields `delayMinutes = 1/2`, which is not an integer. -/
theorem c8_counterexample :
    ((V2.transformJourney ⟨[⟨none, 0, 0, none, none, some (-120)⟩]⟩).delayMinutes
      = -2) ∧
    ((V2.transformJourney ⟨[⟨none, 0, 0, none, none, some (-120)⟩]⟩).delayMinutes
      < 0) ∧
    ((V2.transformJourney ⟨[⟨none, 0, 0, none, none, some 30⟩]⟩).delayMinutes
      = 1 / 2) ∧
    ((1 : ℚ) / 2).den ≠ 1 := by
  refine ⟨?_, ?_, ?_, ?_⟩
  · norm_num [V2.transformJourney]
  · norm_num [V2.transformJourney]
  · norm_num [V2.transformJourney]
  · norm_num

/-- C8 (amended): the delay field is 0 when the upstream delay is absent; it
is non-negative whenever the upstream delay (in seconds) is non-negative; in
the V2 transform it equals the exact minute count (an integer) whenever the
upstream delay is a whole number of minutes, and in the V3 transform it is
always the integer `Math.round(seconds/60)`.  Negative or fractional values
arise only from negative or non-whole-minute upstream delays. -/
theorem c8_delay_nonneg (j : V2.HafasJourney) (q : ℚ)
    (lc : V3.HafasJourney) (fmtLocal : Int → String) (hq : 0 ≤ q) :
    (j.legs.headI.departureDelay = none →
      (V2.transformJourney j).delayMinutes = 0) ∧
    (j.legs.headI.departureDelay = some q →
      0 ≤ (V2.transformJourney j).delayMinutes) ∧
    (∀ k : ℕ, j.legs.headI.departureDelay = some ((60 : ℚ) * k) →
      (V2.transformJourney j).delayMinutes = k) ∧
    (lc.legs.headI.departureDelay = none →
      (V3.mkLeg fmtLocal lc).delay = 0) ∧
    (lc.legs.headI.departureDelay = some q →
      0 ≤ (V3.mkLeg fmtLocal lc).delay) := by
  refine ⟨?_, ?_, ?_, ?_, ?_⟩
  · intro h; simp [V2.transformJourney, h]
  · intro h
    simp only [V2.transformJourney, h, Option.getD_some]
    positivity
  · intro k h
    simp only [V2.transformJourney, h, Option.getD_some]
    rw [mul_comm, mul_div_assoc]
    norm_num
  · intro h
    simp only [V3.mkLeg, h, Option.getD_none, jsRound]
    norm_num
  · intro h
    simp only [V3.mkLeg, h, Option.getD_some, jsRound]
    apply Int.le_floor.mpr
    push_cast
    positivity

/-- C8 witness: concrete legs with missing, zero-second and 120-second
upstream delays. -/
theorem c8_delay_nonneg_witness :
    ((0 : ℚ) ≤ 120) ∧
    ((V2.transformJourney ⟨[⟨none, 0, 0, none, none, none⟩]⟩).delayMinutes
      = 0) ∧
    (0 ≤ (V2.transformJourney
        ⟨[⟨none, 0, 0, none, none, some 120⟩]⟩).delayMinutes) ∧
    ((V2.transformJourney ⟨[⟨none, 0, 0, none, none, some ((60 : ℚ) * 2)⟩]⟩).delayMinutes
      = 2) := by
  have h := c8_delay_nonneg ⟨[⟨none, 0, 0, none, none, some 120⟩]⟩ 120
    ⟨[⟨none, 0, 0, none, none⟩]⟩ (fun _ => "") (by norm_num)
  have h2 := c8_delay_nonneg ⟨[⟨none, 0, 0, none, none, none⟩]⟩ 120
    ⟨[⟨none, 0, 0, none, none⟩]⟩ (fun _ => "") (by norm_num)
  have h3 := c8_delay_nonneg ⟨[⟨none, 0, 0, none, none, some ((60 : ℚ) * 2)⟩]⟩
    120 ⟨[⟨none, 0, 0, none, none⟩]⟩ (fun _ => "") (by norm_num)
  exact ⟨by norm_num, h2.1 rfl, h.2.1 rfl, (h3.2.2.1 2 rfl).trans (by norm_num)⟩

/-- An mgate response whose single journey carries a negative upstream delay
(-120 seconds, i.e. the train runs two minutes early). -/
def mgateNegDelayInput : Scraper.MgateData :=
  ⟨[⟨some ⟨[⟨[⟨some ⟨"100000", 0, some (-120), none⟩, some ⟨"101100"⟩⟩]⟩],
      ⟨[⟨some "RJ 540", none⟩]⟩⟩⟩]⟩

/-- An mgate response whose single journey carries a 60-second upstream delay. -/
def mgatePosDelayInput : Scraper.MgateData :=
  ⟨[⟨some ⟨[⟨[⟨some ⟨"100000", 0, some 60, none⟩, some ⟨"101100"⟩⟩]⟩],
      ⟨[⟨some "RJ 540", none⟩]⟩⟩⟩]⟩

/-- C2 counterexample: the claim fails on three components.  (i) The wrap
branch of the synthetic generator (server.js lines 727-753): at 23:00 every
leg of `generateRealisticSchedule` carries status `'scheduled'` with delay 0 —
a status outside the tri-state, where the rule maps delay 0 to `'on-time'`.
(ii) The V3 fallback generator (server.js lines 363-393): every leg of
`getFallbackData` carries status `'scheduled'` with delay 0, with no wrap
branch involved.  (iii) The mgate parser: a -120-second upstream delay yields
a leg with `delay = -2` and status `'on-time'`, which is not the value of the
shared rule at -2. -/
theorem c2_counterexample :
    ((V4.generateRealisticSchedule "St. Pölten" "Linz" 23 0 (fun _ => (0, 0))).map
        Train.status = ["scheduled", "scheduled", "scheduled"]) ∧
    ((V4.generateRealisticSchedule "St. Pölten" "Linz" 23 0 (fun _ => (0, 0))).map
        Train.delay = [0, 0, 0]) ∧
    ((V3.getFallbackData "stpLinz" 12 0).map Train.status =
      ["scheduled", "scheduled", "scheduled"]) ∧
    ((V3.getFallbackData "stpLinz" 12 0).map Train.delay = [0, 0, 0]) ∧
    classifyDelay 0 = "on-time" ∧
    ("scheduled" : String) ∉
      (["on-time", "slightly-delayed", "delayed"] : List String) ∧
    ((Scraper.parseMgateResponse mgateNegDelayInput).map Train.delay = [-2]) ∧
    ((Scraper.parseMgateResponse mgateNegDelayInput).map Train.status =
      ["on-time"]) ∧
    classifyDelay (-2) = "slightly-delayed" := by
  have hparse : Scraper.parseMgateResponse mgateNegDelayInput =
      [Scraper.mkMgateLeg [⟨some "RJ 540", none⟩]
        ⟨"100000", 0, some (-120), none⟩ ⟨"101100"⟩] := rfl
  have hd : jsRound ((-120 : ℚ) / 60) = -2 := by norm_num [jsRound]
  refine ⟨by decide, by decide, by decide, by decide, by decide, by decide,
    ?_, ?_, by decide⟩
  · rw [hparse]
    simp only [List.map_cons, List.map_nil, Scraper.mkMgateLeg,
      Option.getD_some, hd]
  · rw [hparse]
    simp only [List.map_cons, List.map_nil, Scraper.mkMgateLeg,
      Option.getD_some, hd]
    norm_num

/-- C2 (amended): for every component, every leg's status is the shared
classification of its delay, except that (i) legs emitted with no live delay
information — the next-day wrap branches of the synthetic generators and
every leg of V3's `getFallbackData` — carry status `'scheduled'` with delay 0,
and (ii) for the parsers and live transforms the rule holds whenever the
computed delay is non-negative: the hafas-client transform follows the
0/300-second thresholds, i.e. the same rule on its exact (possibly
fractional) `delayMinutes`, agreeing with the shared rule on every
non-negative integer value; a negative upstream delay is the only way to
leave the rule's domain. -/
theorem c2_status_rule :
    (∀ (schedule : List V1.RawEntry) (currentTime : Nat) (rand : Nat → ℚ × ℚ),
      ∀ leg ∈ V1.getNextTrains schedule currentTime rand,
        leg.status = classifyDelay leg.delay) ∧
    (∀ (fs tos : String) (ch cm : Nat) (rand : Nat → ℚ × ℚ),
      (∀ i, 0 ≤ (rand i).2) →
      ∀ leg ∈ V4.generateRealisticSchedule fs tos ch cm rand,
        leg.status = classifyDelay leg.delay ∨
          (leg.status = "scheduled" ∧ leg.delay = 0)) ∧
    (∀ (fs tos : String) (ch cm : Nat) (rand : Nat → ℚ × ℚ),
      (∀ i, 0 ≤ (rand i).2) →
      ∀ leg ∈ Scraper.getEmergencyFallback fs tos ch cm rand,
        leg.status = classifyDelay leg.delay ∨
          (leg.status = "scheduled" ∧ leg.delay = 0)) ∧
    (∀ (data : Scraper.MgateData), ∀ leg ∈ Scraper.parseMgateResponse data,
      0 ≤ leg.delay → leg.status = classifyDelay leg.delay) ∧
    (∀ (fmtLocal : Int → String) (js : List V3.HafasJourney),
      ∀ leg ∈ V3.transformJourneys fmtLocal js,
        0 ≤ leg.delay → leg.status = classifyDelay leg.delay) ∧
    (∀ (route : String) (ch cm : Nat),
      ∀ leg ∈ V3.getFallbackData route ch cm,
        leg.status = "scheduled" ∧ leg.delay = 0) ∧
    (∀ j : V2.HafasJourney,
      (V2.transformJourney j).status =
        classifyDelayQ (V2.transformJourney j).delayMinutes) ∧
    (∀ k : ℕ, classifyDelayQ (k : ℚ) = classifyDelay (k : ℤ)) ∧
    (∀ (s : String) (delay : Int) (ti : Option String) (leg : Train),
      Scraper.parseOebbRowLeg s delay ti = some leg →
      0 ≤ leg.delay → leg.status = classifyDelay leg.delay) := by
  refine ⟨?_, ?_, ?_, ?_, ?_, ?_, ?_, ?_, ?_⟩
  · intro schedule currentTime rand leg hleg
    simp only [V1.getNextTrains] at hleg
    rw [List.mapIdx_eq_enum_map] at hleg
    rcases List.mem_map.mp hleg with ⟨p, _, hpe⟩
    subst hpe
    rfl
  · intro fs tos ch cm rand hr leg hleg
    rcases generateRealisticSchedule_mem hleg with ⟨p, hp, hpe⟩ | ⟨e, _, hee⟩
    · left
      rcases pickNext3_mem_delay V4.entryMin (isRushHour ch) (ch * 60 + cm)
        rand (V4.patternFor fs tos) 0 p hp with ⟨i, hi⟩
      have hd : 0 ≤ p.2 := hi ▸ drawDelay_nonneg _ (hr i)
      subst hpe
      simp only [V4.mkTodayLeg]
      exact statusIfPos_eq_classify hd
    · right
      subst hee
      exact ⟨rfl, rfl⟩
  · intro fs tos ch cm rand hr leg hleg
    rcases getEmergencyFallback_mem hleg with ⟨p, hp, hpe⟩ | ⟨e, _, hee⟩
    · left
      rcases pickNext3_mem_delay Scraper.efEntryMin (isRushHour ch)
        (ch * 60 + cm) rand (Scraper.efScheduleFor fs tos) 0 p hp with ⟨i, hi⟩
      have hd : 0 ≤ p.2 := hi ▸ drawDelay_nonneg _ (hr i)
      subst hpe
      simp only [Scraper.mkEfLeg]
      exact statusIfPos_eq_classify hd
    · right
      subst hee
      exact ⟨rfl, rfl⟩
  · intro data leg hleg hdel
    rcases parseMgateResponse_mem hleg with ⟨prodL, d, a, hle⟩
    subst hle
    simp only [Scraper.mkMgateLeg] at hdel ⊢
    exact statusIfPos_eq_classify hdel
  · intro fmtLocal js leg hleg hdel
    simp only [V3.transformJourneys] at hleg
    rcases List.mem_map.mp hleg with ⟨j, _, hje⟩
    subst hje
    simp only [V3.mkLeg] at hdel ⊢
    exact statusIfPos_eq_classify hdel
  · intro route ch cm leg hleg
    simp only [V3.getFallbackData] at hleg
    rcases List.mem_map.mp hleg with ⟨i, _, hie⟩
    subst hie
    exact ⟨rfl, rfl⟩
  · intro j
    simp only [V2.transformJourney, classifyDelayQ]
    have h60 : (0 : ℚ) < 60 := by norm_num
    have e1 : j.legs.headI.departureDelay.getD 0 / 60 ≤ (0 : ℚ) ↔
        j.legs.headI.departureDelay.getD 0 ≤ 0 := by
      rw [div_le_iff₀ h60]
      norm_num
    have e2 : j.legs.headI.departureDelay.getD 0 / 60 ≤ (5 : ℚ) ↔
        j.legs.headI.departureDelay.getD 0 ≤ 5 * 60 := by
      rw [div_le_iff₀ h60]
    simp only [e1, e2]
  · intro k
    unfold classifyDelayQ classifyDelay
    rcases Nat.eq_zero_or_pos k with hk | hk
    · subst hk
      norm_num
    · have h0 : ¬ ((k : ℚ) ≤ 0) :=
        not_le.mpr (by exact_mod_cast hk)
      have h0i : ¬ ((k : ℤ) = 0) := by
        exact_mod_cast Nat.pos_iff_ne_zero.mp hk
      rw [if_neg h0, if_neg h0i]
      by_cases h5 : k ≤ 5
      · rw [if_pos (show (k : ℚ) ≤ 5 by exact_mod_cast h5),
          if_pos (show (k : ℤ) ≤ 5 by exact_mod_cast h5)]
      · rw [if_neg (fun hc => h5 (by exact_mod_cast hc : k ≤ 5)),
          if_neg (fun hc => h5 (by exact_mod_cast hc : k ≤ 5))]
  · intro s delay ti leg hrow hdel
    rw [Scraper.parseOebbRowLeg.eq_def] at hrow
    rcases hc : parseClock s with _ | ⟨dh, dm⟩
    · rw [hc] at hrow
      simp at hrow
    · rw [hc] at hrow
      simp only [Option.some_inj] at hrow
      subst hrow
      exact statusIfPos_eq_classify hdel

/-- C2 witness: one concrete leg per component, with every hypothesis
discharged on concrete inputs. -/
theorem c2_status_rule_witness :
    ((⟨"05:42", "06:53", "RJ", "RJ 540", 0, "on-time", "2"⟩ : Train).status =
      classifyDelay 0) ∧
    (((⟨"05:42", "06:53", "RJ", "RJ 551", 0, "scheduled", "2"⟩ : Train).status =
        classifyDelay 0) ∨
      ((⟨"05:42", "06:53", "RJ", "RJ 551", 0, "scheduled", "2"⟩ : Train).status =
          "scheduled" ∧
        (⟨"05:42", "06:53", "RJ", "RJ 551", 0, "scheduled", "2"⟩ : Train).delay =
          0)) ∧
    ((Scraper.mkMgateLeg [⟨some "RJ 540", none⟩] ⟨"100000", 0, some 60, none⟩
        ⟨"101100"⟩).status =
      classifyDelay (Scraper.mkMgateLeg [⟨some "RJ 540", none⟩]
        ⟨"100000", 0, some 60, none⟩ ⟨"101100"⟩).delay) ∧
    ((⟨"12:00", "13:11", "RJ", "RJ 540", 0, "scheduled", "1"⟩ : Train).status =
        "scheduled" ∧
      (⟨"12:00", "13:11", "RJ", "RJ 540", 0, "scheduled", "1"⟩ : Train).delay =
        0) ∧
    ((⟨"08:42", "09:53", "Train", "Train 0842", 3, "slightly-delayed", "?"⟩ :
        Train).status =
      classifyDelay
        (⟨"08:42", "09:53", "Train", "Train 0842", 3, "slightly-delayed", "?"⟩ :
          Train).delay) := by
  have h := c2_status_rule
  have hv1 : V1.getNextTrains [⟨"05:42", "06:53", "RJ 540", "RJ", "2"⟩] 300
      (fun _ => (0, 0)) =
      [⟨"05:42", "06:53", "RJ", "RJ 540", 0, "on-time", "2"⟩,
       ⟨"05:42", "06:53", "RJ", "RJ 540", 0, "on-time", "2"⟩] := by
    with_unfolding_all rfl
  have hv4 : V4.generateRealisticSchedule "St. Pölten" "Linz" 23 0
      (fun _ => (0, 0)) =
      [⟨"05:42", "06:53", "RJ", "RJ 551", 0, "scheduled", "2"⟩,
       ⟨"06:42", "07:53", "RJ", "RJ 553", 0, "scheduled", "2"⟩,
       ⟨"07:12", "08:20", "WB", "WB 8654", 0, "scheduled", "1"⟩] := by
    with_unfolding_all rfl
  have h1 := h.1 [⟨"05:42", "06:53", "RJ 540", "RJ", "2"⟩] 300 (fun _ => (0, 0))
    ⟨"05:42", "06:53", "RJ", "RJ 540", 0, "on-time", "2"⟩
    (by rw [hv1]; exact List.mem_cons_self _ _)
  have h2 := h.2.1 "St. Pölten" "Linz" 23 0 (fun _ => (0, 0))
    (fun _ => le_refl 0)
    ⟨"05:42", "06:53", "RJ", "RJ 551", 0, "scheduled", "2"⟩
    (by rw [hv4]; exact List.mem_cons_self _ _)
  have hparse : Scraper.parseMgateResponse mgatePosDelayInput =
      [Scraper.mkMgateLeg [⟨some "RJ 540", none⟩] ⟨"100000", 0, some 60, none⟩
        ⟨"101100"⟩] := rfl
  have hdel : (0 : Int) ≤ (Scraper.mkMgateLeg [⟨some "RJ 540", none⟩]
      ⟨"100000", 0, some 60, none⟩ ⟨"101100"⟩).delay := by
    simp only [Scraper.mkMgateLeg, Option.getD_some]
    norm_num [jsRound]
  have h4 := h.2.2.2.1 mgatePosDelayInput
    (Scraper.mkMgateLeg [⟨some "RJ 540", none⟩] ⟨"100000", 0, some 60, none⟩
      ⟨"101100"⟩) (by rw [hparse]; exact List.mem_singleton.mpr rfl) hdel
  have h6 := h.2.2.2.2.2.1 "stpLinz" 12 0
    ⟨"12:00", "13:11", "RJ", "RJ 540", 0, "scheduled", "1"⟩ (by decide)
  have h9 := h.2.2.2.2.2.2.2.2 "08:42" 3 none
    ⟨"08:42", "09:53", "Train", "Train 0842", 3, "slightly-delayed", "?"⟩
    (by decide) (by decide)
  exact ⟨h1, h2, h4, h6, h9⟩

/-- Departure-after-now property for the emergency fallback generator. -/
theorem getEmergencyFallback_after_now (fs tos : String) (ch cm : Nat)
    (rand : Nat → ℚ × ℚ) :
    ∀ leg ∈ Scraper.getEmergencyFallback fs tos ch cm rand,
      leg.status = "scheduled" ∨
        ∃ mm, ch * 60 + cm < mm ∧ mm < 1440 ∧ leg.departure = fmtTime mm := by
  intro leg hleg
  rcases getEmergencyFallback_mem hleg with ⟨p, hp, hpe⟩ | ⟨e, _, hee⟩
  · right
    have hf := pickNext3_mem_fst hp
    have hfacts := efSchedule_facts fs tos p.1 hf.1
    refine ⟨Scraper.efEntryMin p.1, hf.2, hfacts.2.1, ?_⟩
    subst hpe
    simp only [Scraper.mkEfLeg]
    exact fmtHM_eq_fmtTime p.1.hour hfacts.1
  · left
    subst hee
    rfl

/-- C4: for every route and instant, the synthetic fallback generators return
between 1 and 3 legs, and every returned leg either departs strictly after
"now" or is a wrap-around leg (tagged `'scheduled'`), understood as a next-day
departure.  Stated for `generateRealisticSchedule` on arbitrary station
strings and for `getEmergencyFallback` on the two served routes. -/
theorem c4_synthetic_generator_bounds (fs tos : String) (ch cm : Nat)
    (rand : Nat → ℚ × ℚ) :
    (1 ≤ (V4.generateRealisticSchedule fs tos ch cm rand).length ∧
      (V4.generateRealisticSchedule fs tos ch cm rand).length ≤ 3) ∧
    (∀ leg ∈ V4.generateRealisticSchedule fs tos ch cm rand,
      leg.status = "scheduled" ∨
        ∃ mm, ch * 60 + cm < mm ∧ mm < 1440 ∧ leg.departure = fmtTime mm) ∧
    (1 ≤ (Scraper.getEmergencyFallback "St. Pölten" "Linz" ch cm rand).length ∧
      (Scraper.getEmergencyFallback "St. Pölten" "Linz" ch cm rand).length ≤ 3) ∧
    (∀ leg ∈ Scraper.getEmergencyFallback "St. Pölten" "Linz" ch cm rand,
      leg.status = "scheduled" ∨
        ∃ mm, ch * 60 + cm < mm ∧ mm < 1440 ∧ leg.departure = fmtTime mm) ∧
    (1 ≤ (Scraper.getEmergencyFallback "Linz" "St. Pölten" ch cm rand).length ∧
      (Scraper.getEmergencyFallback "Linz" "St. Pölten" ch cm rand).length ≤ 3) ∧
    (∀ leg ∈ Scraper.getEmergencyFallback "Linz" "St. Pölten" ch cm rand,
      leg.status = "scheduled" ∨
        ∃ mm, ch * 60 + cm < mm ∧ mm < 1440 ∧ leg.departure = fmtTime mm) := by
  refine ⟨?_, ?_, ?_, getEmergencyFallback_after_now _ _ ch cm rand, ?_,
    getEmergencyFallback_after_now _ _ ch cm rand⟩
  · rw [generateRealisticSchedule_length]
    exact ⟨by norm_num, by norm_num⟩
  · intro leg hleg
    rcases generateRealisticSchedule_mem hleg with ⟨p, hp, hpe⟩ | ⟨e, _, hee⟩
    · right
      have hf := pickNext3_mem_fst hp
      have hfacts := patternFor_facts fs tos p.1 hf.1
      refine ⟨V4.entryMin p.1, hf.2, hfacts.2.1, ?_⟩
      subst hpe
      simp only [V4.mkTodayLeg]
      exact fmtHM_eq_fmtTime p.1.hour hfacts.1
    · left
      subst hee
      rfl
  · rw [getEmergencyFallback_length _ _ ch cm rand (by decide)]
    exact ⟨by norm_num, by norm_num⟩
  · rw [getEmergencyFallback_length _ _ ch cm rand (by decide)]
    exact ⟨by norm_num, by norm_num⟩

/-- C4 witness: the generator at 23:00 (wrap case) — its first leg is a
next-day leg tagged `'scheduled'` and the leg count is in bounds. -/
theorem c4_synthetic_generator_bounds_witness :
    (1 ≤ (V4.generateRealisticSchedule "St. Pölten" "Linz" 23 0
        (fun _ => (0, 0))).length ∧
      (V4.generateRealisticSchedule "St. Pölten" "Linz" 23 0
        (fun _ => (0, 0))).length ≤ 3) ∧
    ((⟨"05:42", "06:53", "RJ", "RJ 551", 0, "scheduled", "2"⟩ : Train).status =
        "scheduled" ∨
      ∃ mm, 23 * 60 + 0 < mm ∧ mm < 1440 ∧
        (⟨"05:42", "06:53", "RJ", "RJ 551", 0, "scheduled", "2"⟩ : Train).departure =
          fmtTime mm) := by
  have h := c4_synthetic_generator_bounds "St. Pölten" "Linz" 23 0
    (fun _ => (0, 0))
  have hv4 : V4.generateRealisticSchedule "St. Pölten" "Linz" 23 0
      (fun _ => (0, 0)) =
      [⟨"05:42", "06:53", "RJ", "RJ 551", 0, "scheduled", "2"⟩,
       ⟨"06:42", "07:53", "RJ", "RJ 553", 0, "scheduled", "2"⟩,
       ⟨"07:12", "08:20", "WB", "WB 8654", 0, "scheduled", "1"⟩] := by
    with_unfolding_all rfl
  exact ⟨h.1, h.2.1 _ (by rw [hv4]; exact List.mem_cons_self _ _)⟩

/-- C6: whenever an arrival is synthesized, it is exactly the departure plus
the per-route duration, modulo the 24-hour day.  (i) For the HTML parser's
rows: the emitted arrival denotes `(departure + 71) mod 1440` minutes and the
departure string is passed through unchanged.  (ii) For the synthetic
generator: every leg's arrival denotes `(departure + duration) mod 1440` with
the entry's fixed duration (68 for WB, 71 for RJ entries). -/
theorem c6_arrival_duration :
    (∀ (s : String) (dh dm : Nat) (delay : Int) (ti : Option String)
        (leg : Train),
      parseClock s = some (dh, dm) →
      Scraper.parseOebbRowLeg s delay ti = some leg →
      leg.departure = s ∧
        parseHHMM leg.arrival = some ((dh * 60 + dm + 71) % 1440)) ∧
    (∀ (fs tos : String) (ch cm : Nat) (rand : Nat → ℚ × ℚ),
      ∀ leg ∈ V4.generateRealisticSchedule fs tos ch cm rand,
        ∃ mm dur, parseHHMM leg.departure = some mm ∧ (dur = 68 ∨ dur = 71) ∧
          parseHHMM leg.arrival = some ((mm + dur) % 1440)) := by
  constructor
  · intro s dh dm delay ti leg hclock hrow
    rw [Scraper.parseOebbRowLeg.eq_def, hclock] at hrow
    simp only [Option.some_inj] at hrow
    subst hrow
    refine ⟨rfl, ?_⟩
    show parseHHMM (fmtTime ((dh * 60 + dm + 71) % (24 * 60))) = _
    rw [parseHHMM_fmtTime (Nat.mod_lt _ (by norm_num))]
  · intro fs tos ch cm rand leg hleg
    rcases generateRealisticSchedule_mem hleg with ⟨p, hp, hpe⟩ | ⟨e, he, hee⟩
    · have hf := pickNext3_mem_fst hp
      have hfacts := patternFor_facts fs tos p.1 hf.1
      refine ⟨V4.entryMin p.1, p.1.duration, ?_, hfacts.2.2.2, ?_⟩
      · subst hpe
        simp only [V4.mkTodayLeg]
        rw [fmtHM_eq_fmtTime p.1.hour hfacts.1]
        exact parseHHMM_fmtTime hfacts.2.1
      · subst hpe
        simp only [V4.mkTodayLeg]
        show parseHHMM (fmtTime ((V4.entryMin p.1 + p.1.duration) % (24 * 60))) = _
        rw [parseHHMM_fmtTime (Nat.mod_lt _ (by norm_num))]
    · have hfacts := patternFor_facts fs tos e he
      refine ⟨V4.entryMin e, e.duration, ?_, hfacts.2.2.2, ?_⟩
      · subst hee
        simp only [V4.mkWrapLeg]
        rw [fmtHM_eq_fmtTime e.hour hfacts.1]
        exact parseHHMM_fmtTime hfacts.2.1
      · subst hee
        simp only [V4.mkWrapLeg]
        rw [fmtHM_wrap_eq_fmtTime]
        exact parseHHMM_fmtTime (Nat.mod_lt _ (by norm_num))

/-- C6 witness: a parsed row departing 08:42 arrives 09:53 = 08:42 + 71 min,
and a concrete generator leg satisfies the round-trip. -/
theorem c6_arrival_duration_witness :
    (parseClock "08:42" = some (8, 42)) ∧
    ((Scraper.parseOebbRowLeg "08:42" 0 none).map Train.departure =
      some "08:42") ∧
    ((Scraper.parseOebbRowLeg "08:42" 0 none).map
        (fun leg => parseHHMM leg.arrival) =
      some (some ((8 * 60 + 42 + 71) % 1440))) := by
  have hclock : parseClock "08:42" = some (8, 42) := by decide
  have hrow : Scraper.parseOebbRowLeg "08:42" 0 none =
      some ⟨"08:42", "09:53", "Train", "Train 0842", 0, "on-time", "?"⟩ := by
    decide
  have h := c6_arrival_duration.1 "08:42" 8 42 0 none
    ⟨"08:42", "09:53", "Train", "Train 0842", 0, "on-time", "?"⟩ hclock hrow
  refine ⟨hclock, ?_, ?_⟩
  · rw [hrow, Option.map_some']
  · rw [hrow, Option.map_some']
    exact congrArg some h.2

/-- Real-axis actual departure of a today-leg: scheduled minutes plus delay. -/
theorem nda_mkTodayLeg {e : V4.SchedEntry} (hm : e.minute < 60)
    (hlt : V4.entryMin e < 1440) (d : Int) :
    nextDayAdjustedDeparture (V4.mkTodayLeg e d) = V4.entryMin e + d := by
  have hst : ((if d > 0 then
      (if d ≤ 5 then "slightly-delayed" else "delayed")
      else "on-time") : String) ≠ "scheduled" := by
    split
    · split <;> decide
    · decide
  have hlt2 : e.hour * 60 + e.minute < 1440 := hlt
  unfold nextDayAdjustedDeparture actualDepartureMinutes
  simp only [V4.mkTodayLeg]
  rw [fmtHM_eq_fmtTime e.hour hm, parseHHMM_fmtTime hlt2, if_neg hst]
  simp only [Option.getD_some, V4.entryMin]
  ring

/-- Real-axis actual departure of a wrap-leg: scheduled minutes plus a day. -/
theorem nda_mkWrapLeg {e : V4.SchedEntry} (hm : e.minute < 60)
    (hlt : V4.entryMin e < 1440) :
    nextDayAdjustedDeparture (V4.mkWrapLeg e) = V4.entryMin e + 1440 := by
  have hlt2 : e.hour * 60 + e.minute < 1440 := hlt
  unfold nextDayAdjustedDeparture actualDepartureMinutes
  simp only [V4.mkWrapLeg]
  rw [fmtHM_eq_fmtTime e.hour hm, parseHHMM_fmtTime hlt2]
  simp only [Option.getD_some, V4.entryMin, if_true]
  omega

/-- An mgate response with two journeys in upstream (scheduled) order in which
the first carries a 20-minute delay and the second none, so their actual
departures are out of order. -/
def mgateUnsortedInput : Scraper.MgateData :=
  ⟨[⟨some ⟨[⟨[⟨some ⟨"100000", 0, some 1200, none⟩, some ⟨"101100"⟩⟩]⟩,
       ⟨[⟨some ⟨"100500", 0, some 0, none⟩, some ⟨"101600"⟩⟩]⟩],
      ⟨[⟨some "RJ 540", none⟩]⟩⟩⟩]⟩

/-- C9 counterexample: the mgate parser emits legs in upstream order without
re-sorting by actual departure.  With upstream delay information present
(delays 20 and 0), the parsed sequence has actual departures 10:20 then
10:05 — not ascending. -/
theorem c9_counterexample :
    ((Scraper.parseMgateResponse mgateUnsortedInput).map Train.delay =
      [20, 0]) ∧
    ((Scraper.parseMgateResponse mgateUnsortedInput).map
        actualDepartureMinutes = [620, 605]) ∧
    ¬ List.Pairwise
        (fun a b => actualDepartureMinutes a ≤ actualDepartureMinutes b)
        (Scraper.parseMgateResponse mgateUnsortedInput) := by
  have hparse : Scraper.parseMgateResponse mgateUnsortedInput =
      [Scraper.mkMgateLeg [⟨some "RJ 540", none⟩]
         ⟨"100000", 0, some 1200, none⟩ ⟨"101100"⟩,
       Scraper.mkMgateLeg [⟨some "RJ 540", none⟩]
         ⟨"100500", 0, some 0, none⟩ ⟨"101600"⟩] := rfl
  have hd1 : jsRound ((1200 : ℚ) / 60) = 20 := by norm_num [jsRound]
  have hd2 : jsRound ((0 : ℚ) / 60) = 0 := by norm_num [jsRound]
  have hmap : (Scraper.parseMgateResponse mgateUnsortedInput).map Train.delay =
      [20, 0] := by
    rw [hparse]
    simp only [List.map_cons, List.map_nil, Scraper.mkMgateLeg,
      Option.getD_some, hd1, hd2]
  have hact : (Scraper.parseMgateResponse mgateUnsortedInput).map
      actualDepartureMinutes = [620, 605] := by
    rw [hparse]
    simp only [List.map_cons, List.map_nil, Scraper.mkMgateLeg,
      Option.getD_some, actualDepartureMinutes, hd1, hd2]
    decide
  refine ⟨hmap, hact, ?_⟩
  intro hpw
  rw [hparse] at hpw hact
  simp only [List.map_cons, List.map_nil, List.cons.injEq, and_true] at hact
  have hR := (List.pairwise_cons.mp hpw).1 _ (List.mem_cons_self _ _)
  rw [hact.1, hact.2] at hR
  norm_num at hR

/-- C9 (amended): the synthetic generator's leg sequences are strictly
ascending by actual departure time (scheduled plus delay), with wrapped legs
understood as next-day departures; this holds because every adjacent pair of
pattern entries is at least 19 minutes apart while drawn delays are at most
12 minutes.  Parsers emit legs in upstream response order and do not
re-establish this ordering (see the counterexample). -/
theorem c9_generator_sorted (fs tos : String) (ch cm : Nat)
    (rand : Nat → ℚ × ℚ) (hr : ∀ i, 0 ≤ (rand i).2 ∧ (rand i).2 < 1) :
    List.Pairwise
      (fun a b => nextDayAdjustedDeparture a < nextDayAdjustedDeparture b)
      (V4.generateRealisticSchedule fs tos ch cm rand) := by
  have hfacts := patternFor_facts fs tos
  have hgaps := patternFor_gaps fs tos
  have hmemp : ∀ p ∈ pickNext3 V4.entryMin (isRushHour ch) (ch * 60 + cm) rand
      (V4.patternFor fs tos) 0,
      p.1 ∈ V4.patternFor fs tos ∧ 0 ≤ p.2 ∧ p.2 ≤ 12 := by
    intro p hp
    have h1 := pickNext3_mem_fst hp
    rcases pickNext3_mem_delay V4.entryMin (isRushHour ch) (ch * 60 + cm)
      rand (V4.patternFor fs tos) 0 p hp with ⟨i, hi⟩
    refine ⟨h1.1, ?_, ?_⟩
    · rw [hi]; exact drawDelay_nonneg _ (hr i).1
    · rw [hi]; exact drawDelay_le_twelve _ (hr i).2
  have hgap_pick : List.Pairwise (fun p q : V4.SchedEntry × Int =>
      V4.entryMin p.1 + 19 ≤ V4.entryMin q.1)
      (pickNext3 V4.entryMin (isRushHour ch) (ch * 60 + cm) rand
        (V4.patternFor fs tos) 0) := by
    have hsub : ((pickNext3 V4.entryMin (isRushHour ch) (ch * 60 + cm) rand
        (V4.patternFor fs tos) 0).map Prod.fst).Sublist
        (V4.patternFor fs tos) := by
      rw [pickNext3_map_fst]
      exact (List.take_sublist _ _).trans (List.filter_sublist _)
    exact (List.pairwise_map).mp (hgaps.sublist hsub)
  have htoday : List.Pairwise
      (fun a b => nextDayAdjustedDeparture a < nextDayAdjustedDeparture b)
      ((pickNext3 V4.entryMin (isRushHour ch) (ch * 60 + cm) rand
        (V4.patternFor fs tos) 0).map fun p => V4.mkTodayLeg p.1 p.2) := by
    rw [List.pairwise_map]
    refine hgap_pick.imp_of_mem ?_
    intro p q hp hq hpq
    have hfp := hfacts p.1 (hmemp p hp).1
    have hfq := hfacts q.1 (hmemp q hq).1
    rw [nda_mkTodayLeg hfp.1 hfp.2.1, nda_mkTodayLeg hfq.1 hfq.2.1]
    have hdp := (hmemp p hp).2.2
    have hdq := (hmemp q hq).2.1
    omega
  have hwrap : ∀ k : Nat, List.Pairwise
      (fun a b => nextDayAdjustedDeparture a < nextDayAdjustedDeparture b)
      (((V4.patternFor fs tos).take k).map V4.mkWrapLeg) := by
    intro k
    rw [List.pairwise_map]
    refine (hgaps.sublist (List.take_sublist _ _)).imp_of_mem ?_
    intro a b ha hb hab
    have hfa := hfacts a (List.mem_of_mem_take ha)
    have hfb := hfacts b (List.mem_of_mem_take hb)
    rw [nda_mkWrapLeg hfa.1 hfa.2.1, nda_mkWrapLeg hfb.1 hfb.2.1]
    omega
  have hcross : ∀ k : Nat,
      ∀ a ∈ (pickNext3 V4.entryMin (isRushHour ch) (ch * 60 + cm) rand
        (V4.patternFor fs tos) 0).map (fun p => V4.mkTodayLeg p.1 p.2),
      ∀ b ∈ ((V4.patternFor fs tos).take k).map V4.mkWrapLeg,
        nextDayAdjustedDeparture a < nextDayAdjustedDeparture b := by
    intro k a ha b hb
    rcases List.mem_map.mp ha with ⟨p, hp, hpa⟩
    rcases List.mem_map.mp hb with ⟨e, he2, heb⟩
    have hfp := hfacts p.1 (hmemp p hp).1
    have hfe := hfacts e (List.mem_of_mem_take he2)
    subst hpa heb
    rw [nda_mkTodayLeg hfp.1 hfp.2.1, nda_mkWrapLeg hfe.1 hfe.2.1]
    have hd := (hmemp p hp).2.2
    have h1 := hfp.2.1
    have h2 := hfe.2.2.1
    omega
  simp only [V4.generateRealisticSchedule]
  split
  · exact List.pairwise_append.mpr ⟨htoday, hwrap _, hcross _⟩
  · exact htoday

/-- C9 witness: the ordering at a concrete instant and random source. -/
theorem c9_generator_sorted_witness :
    List.Pairwise
      (fun a b => nextDayAdjustedDeparture a < nextDayAdjustedDeparture b)
      (V4.generateRealisticSchedule "St. Pölten" "Linz" 8 0
        (fun _ => (0, 0))) :=
  c9_generator_sorted "St. Pölten" "Linz" 8 0 (fun _ => (0, 0))
    (fun _ => ⟨by norm_num, by norm_num⟩)

end OebbProxy
